import Mathlib

/-!
Verification of the duktape ECMAScript-to-bytecode compiler
(`src/duk_js_compiler.c`) against its natural-language specification.

The compiler source is shallowly embedded below: the data model
(instructions, compiler function state, label records, tagged values) and
the operations the specification's claims are about (constant interning,
temp-register allocation, instruction emission, the peephole optimizer,
the break/continue and return statement emitters, the Pratt lbp table,
the pass-2 formal-name validation, the top-level driver).

Machine integers are modelled as `Nat`/`Int`.  The bytecode word layout,
opcode numbers and flag-bit values come from headers that are not part of
the compiler translation unit; they are modelled from the specification
(section 4.1) where so marked.  Bit fields are packed by addition of
shifted fields, which agrees with the C macros' bitwise-or for in-range
operands (the compiler asserts the ranges before encoding).
-/

/-- Error codes used by the compiler (`DUK_ERROR` call sites). -/
inductive DukErrCode where
  | DUK_ERR_RANGE_ERROR
  | DUK_ERR_SYNTAX_ERROR
  | DUK_ERR_INTERNAL_ERROR
  deriving DecidableEq, Repr

/-- An error raised through the compiler's typed failure channel:
`DUK_ERROR(thr, code, msg)` creates an error object carrying a code and a
message and unwinds the whole compilation. -/
structure DukError where
  code : DukErrCode
  message : String
  deriving DecidableEq, Repr

/- Bytecode field layout.  Modelled from the spec (section 4.1): each
instruction is a 32-bit word `OP(6) A(8) B(9) C(9)`, `OP(6) A(8) BC(18)`
or `OP(6) ABC(26)`; the defining header is not part of src.  OP occupies
the low 6 bits, then A, B, C in increasing bit positions. -/
def DUK_BC_A_MAX : Nat := 2 ^ 8 - 1

def DUK_BC_B_MAX : Nat := 2 ^ 9 - 1

def DUK_BC_C_MAX : Nat := 2 ^ 9 - 1

def DUK_BC_BC_MAX : Nat := 2 ^ 18 - 1

def DUK_BC_ABC_MAX : Nat := 2 ^ 26 - 1

/-- Modelled from the spec: ABC is "a signed offset (with bias) for
jumps"; the bias is half the 26-bit range. -/
def DUK_BC_JUMP_BIAS : Nat := 2 ^ 25

/-- Modelled from the spec: `LDINT` loads a biased integer via the 18-bit
BC slot; the bias is half the 18-bit range. -/
def DUK_BC_LDINT_BIAS : Nat := 2 ^ 17

/-- Modelled from the spec: `LDINTX` supplies the remaining low bits of a
two-part integer load. -/
def DUK_BC_LDINTX_SHIFT : Nat := 18

def DUK_ENC_OP_A_B_C (op a b c : Nat) : Nat :=
  op + a * 2 ^ 6 + b * 2 ^ 14 + c * 2 ^ 23

def DUK_ENC_OP_A_BC (op a bc : Nat) : Nat :=
  op + a * 2 ^ 6 + bc * 2 ^ 14

def DUK_ENC_OP_ABC (op abc : Nat) : Nat :=
  op + abc * 2 ^ 6

def DUK_DEC_OP (ins : Nat) : Nat := ins % 2 ^ 6

def DUK_DEC_A (ins : Nat) : Nat := ins / 2 ^ 6 % 2 ^ 8

def DUK_DEC_B (ins : Nat) : Nat := ins / 2 ^ 14 % 2 ^ 9

def DUK_DEC_C (ins : Nat) : Nat := ins / 2 ^ 23 % 2 ^ 9

def DUK_DEC_BC (ins : Nat) : Nat := ins / 2 ^ 14 % 2 ^ 18

def DUK_DEC_ABC (ins : Nat) : Nat := ins / 2 ^ 6 % 2 ^ 26

/- Opcode numbers.  Modelled from the spec: the opcode families are fixed
by section 4.1 but the numeric values live in a header that is not part
of src; distinct values below 2^6 are chosen.  Indirect variants follow
their direct counterparts (the source asserts e.g.
`DUK_OP_CALLI == DUK_OP_CALL + 1`). -/
def DUK_OP_LDREG : Nat := 0

def DUK_OP_STREG : Nat := 1

def DUK_OP_LDCONST : Nat := 2

def DUK_OP_LDINT : Nat := 3

def DUK_OP_LDINTX : Nat := 4

def DUK_OP_JUMP : Nat := 5

def DUK_OP_RETURN : Nat := 6

def DUK_OP_CALL : Nat := 7

def DUK_OP_CALLI : Nat := 8

def DUK_OP_NEW : Nat := 9

def DUK_OP_NEWI : Nat := 10

def DUK_OP_BREAK : Nat := 11

def DUK_OP_CONTINUE : Nat := 12

def DUK_OP_LABEL : Nat := 13

def DUK_OP_ENDLABEL : Nat := 14

def DUK_OP_CSVAR : Nat := 15

def DUK_OP_CSVARI : Nat := 16

def DUK_OP_CSREG : Nat := 17

def DUK_OP_CSREGI : Nat := 18

def DUK_OP_CSPROP : Nat := 19

def DUK_OP_CSPROPI : Nat := 20

def DUK_OP_MPUTOBJ : Nat := 21

def DUK_OP_MPUTOBJI : Nat := 22

def DUK_OP_MPUTARR : Nat := 23

def DUK_OP_MPUTARRI : Nat := 24

def DUK_OP_EXTRA : Nat := 25

def DUK_OP_INVALID : Nat := 26

def DUK_EXTRAOP_INITGET : Nat := 0

def DUK_EXTRAOP_INITGETI : Nat := 1

def DUK_EXTRAOP_INITSET : Nat := 2

def DUK_EXTRAOP_INITSETI : Nat := 3

/- Flag bits carried in slot A of `RETURN` and `CALL` instructions.
Modelled from the spec (sections 4.1 and 4.5): the numeric bit values
live in the missing bytecode header; distinct bits are chosen. -/
def DUK_BC_RETURN_FLAG_HAVE_RETVAL : Nat := 1

def DUK_BC_RETURN_FLAG_FAST : Nat := 2

def DUK_BC_CALL_FLAG_TAILCALL : Nat := 2

/-- Model of `DUK_JS_CONST_MARKER`: high bit marking a reg/const operand as a
constant-pool index.  Modelled from the spec ("constant-marker bit
handling"); the value lives in a missing header, above all slot widths. -/
def DUK__CONST_MARKER : Nat := 2 ^ 31

/-- One element of the compiler's code buffer: a 32-bit instruction word
plus the source line it came from (`duk_compiler_instr`). -/
structure duk_compiler_instr where
  ins : Nat
  line : Nat
  deriving DecidableEq, Repr

/-!  ## Tagged values and ES5 SameValue  -/
/-- Shallow model of an IEEE-754 double as the compiler's constants use
it: NaN, signed zero, or a nonzero finite value (exactly representable as
a rational).  This is enough to express the SameValue distinctions the
spec calls out (NaN equals NaN; `+0` and `-0` differ). -/
inductive duk_double where
  | nan
  | zero (negative : Bool)
  | finite (v : ℚ)
  deriving DecidableEq, Repr

/-- Model of `duk_tval` restricted to the value kinds the compiler interns
into a constant pool (literals: undefined/null/boolean/number/string). -/
inductive duk_tval where
  | undefined
  | null
  | boolean (b : Bool)
  | number (d : duk_double)
  | string (s : String)
  deriving DecidableEq, Repr

instance : Inhabited duk_tval := ⟨duk_tval.undefined⟩

/-- Modelled from the spec: `duk_js_samevalue` (defined outside the
compiler translation unit) implements ES5 SameValue, "distinguishing `+0`
from `-0` and treating NaN as equal to NaN". -/
def duk_js_samevalue (x y : duk_tval) : Bool :=
  match x, y with
  | .undefined, .undefined => true
  | .null, .null => true
  | .boolean a, .boolean b => a == b
  | .number .nan, .number .nan => true
  | .number (.zero s1), .number (.zero s2) => s1 == s2
  | .number (.finite v1), .number (.finite v2) => v1 == v2
  | .string s1, .string s2 => s1 == s2
  | _, _ => false

/-!  ## Compiler function state

The fields of `duk_compiler_func` used by the embedded operations: the
code buffer, the constant pool, the temp-register counters, the shuffle
bookkeeping, the catch depth and the inner-function counter. -/
structure duk_compiler_func where
  is_function : Bool := true
  h_code : List duk_compiler_instr := []
  consts : List duk_tval := []
  temp_first : Nat := 0
  temp_next : Nat := 0
  temp_max : Nat := 0
  needs_shuffle : Bool := false
  shuffle1 : Nat := 0
  shuffle2 : Nat := 0
  shuffle3 : Nat := 0
  catch_depth : Nat := 0
  fnum_next : Nat := 0
  deriving DecidableEq, Repr

/-!  ## Resource limits (`duk__alloctemps`, `duk__getconst`, fnum)  -/
/-- Sanity window for constant-pool deduplication (`duk_js_compiler.c:33`). -/
def DUK__GETCONST_MAX_CONSTS_CHECK : Nat := 256

def DUK__MAX_CONSTS : Nat := DUK_BC_BC_MAX + 1

def DUK__MAX_FUNCS : Nat := DUK_BC_BC_MAX + 1

def DUK__MAX_TEMPS : Nat := DUK_BC_BC_MAX + 1

/-- Model of `duk__alloctemps`: bump `temp_next` by `num`, fail when the new top
exceeds `DUK__MAX_TEMPS` (equality is allowed), maintain `temp_max`;
returns the first allocated register. -/
def duk__alloctemps (f : duk_compiler_func) (num : Nat) :
    Except DukError (duk_compiler_func × Nat) :=
  let res := f.temp_next
  let tn := f.temp_next + num
  if tn > DUK__MAX_TEMPS then
    .error ⟨.DUK_ERR_INTERNAL_ERROR, "out of temps"⟩
  else
    let tm := if tn > f.temp_max then tn else f.temp_max
    .ok ({ f with temp_next := tn, temp_max := tm }, res)

def duk__alloctemp (f : duk_compiler_func) : Except DukError (duk_compiler_func × Nat) :=
  duk__alloctemps f 1

/-- The linear scan inside `duk__getconst`: find the first index
`i < n_check` whose pool entry is SameValue-equal to `tv1`. -/
def duk__getconst_scan (consts : List duk_tval) (tv1 : duk_tval) (n_check : Nat) :
    Option Nat :=
  (List.range n_check).find? fun i => duk_js_samevalue tv1 (consts.getD i .undefined)

/-- Model of `duk__getconst`: intern the value `tv1` into the current function's
constant pool.  Scans only the first `DUK__GETCONST_MAX_CONSTS_CHECK`
entries for a SameValue-equal entry; on a hit returns the existing index
(with the constant marker), otherwise appends — failing with "out of
consts" when the pool already has `DUK__MAX_CONSTS` entries. -/
def duk__getconst (f : duk_compiler_func) (tv1 : duk_tval) :
    Except DukError (duk_compiler_func × Nat) :=
  let n := f.consts.length
  let n_check := if n > DUK__GETCONST_MAX_CONSTS_CHECK then DUK__GETCONST_MAX_CONSTS_CHECK else n
  match duk__getconst_scan f.consts tv1 n_check with
  | some i => .ok (f, i ||| DUK__CONST_MARKER)
  | none =>
    if n ≥ DUK__MAX_CONSTS then
      .error ⟨.DUK_ERR_INTERNAL_ERROR, "out of consts"⟩
    else
      .ok ({ f with consts := f.consts ++ [tv1] }, n ||| DUK__CONST_MARKER)

/-- The inner-function count check in `duk__parse_func_like_fnum`
(`duk_js_compiler.c:6782-6786`): allocate the next function number,
failing when it reaches `DUK__MAX_FUNCS`. -/
def duk__parse_func_like_fnum_alloc (fnum_next : Nat) : Except DukError Nat :=
  let fnum := fnum_next
  if fnum ≥ DUK__MAX_FUNCS then
    .error ⟨.DUK_ERR_INTERNAL_ERROR, "out of funcs"⟩
  else
    .ok fnum

/-!  ## Instruction emission (`duk__emit*`)

Operand words are below `2^32`; testing or clearing the constant-marker
bit (bit 31) is therefore a comparison or remainder at `2^31`, and the
bitwise-or accumulation of the const-flag bits in the C code is the
addition of `256` to an 8-bit B/C field. -/
def DUK__EMIT_FLAG_NO_SHUFFLE_A : Nat := 2 ^ 8

def DUK__EMIT_FLAG_NO_SHUFFLE_B : Nat := 2 ^ 9

def DUK__EMIT_FLAG_NO_SHUFFLE_C : Nat := 2 ^ 10

def DUK__EMIT_FLAG_A_IS_SOURCE : Nat := 2 ^ 11

def DUK__EMIT_FLAG_B_IS_TARGET : Nat := 2 ^ 12

def DUK__EMIT_FLAG_C_IS_TARGET : Nat := 2 ^ 13

/-- Test an `op_flags` bit (the flags are single bits above the 8-bit
opcode field). -/
def duk__opflag (op_flags : Nat) (bit : Nat) : Bool :=
  op_flags / bit % 2 = 1

def duk__is_const_marked (x : Nat) : Bool :=
  DUK__CONST_MARKER ≤ x

def duk__clear_const_marker (x : Nat) : Nat :=
  x % DUK__CONST_MARKER

/-- Model of `duk__emit`: append one instruction to the current function's code
buffer, recording the current token's line. -/
def duk__emit (f : duk_compiler_func) (line : Nat) (ins : Nat) : duk_compiler_func :=
  { f with h_code := f.h_code ++ [⟨ins, line⟩] }

/-- Model of `duk__emit_abc` (the asserts on the ABC range are compiled out). -/
def duk__emit_abc (f : duk_compiler_func) (line : Nat) (op abc : Nat) : duk_compiler_func :=
  duk__emit f line (DUK_ENC_OP_ABC op abc)

/-- Model of `duk__emit_a_bc`: emit an A/BC-form instruction, shuffling slot A
through `shuffle1` when it exceeds 8 bits. -/
def duk__emit_a_bc (f : duk_compiler_func) (line : Nat) (op_flags a bc0 : Nat) :
    Except DukError duk_compiler_func :=
  let bc := duk__clear_const_marker bc0
  if bc > DUK_BC_BC_MAX then
    .error ⟨.DUK_ERR_RANGE_ERROR, "out of regs"⟩
  else if a ≤ DUK_BC_A_MAX then
    .ok (duk__emit f line (DUK_ENC_OP_A_BC (op_flags % 2 ^ 8) a bc))
  else if duk__opflag op_flags DUK__EMIT_FLAG_NO_SHUFFLE_A then
    .error ⟨.DUK_ERR_RANGE_ERROR, "out of regs"⟩
  else if a ≤ DUK_BC_BC_MAX then
    let f := { f with needs_shuffle := true }
    let tmp := f.shuffle1
    let ins := DUK_ENC_OP_A_BC (op_flags % 2 ^ 8) tmp bc
    if duk__opflag op_flags DUK__EMIT_FLAG_A_IS_SOURCE then
      .ok (duk__emit (duk__emit f line (DUK_ENC_OP_A_BC DUK_OP_LDREG tmp a)) line ins)
    else
      .ok (duk__emit (duk__emit f line ins) line (DUK_ENC_OP_A_BC DUK_OP_STREG tmp a))
  else
    .error ⟨.DUK_ERR_RANGE_ERROR, "out of regs"⟩

/-- Model of `duk__emit_loadint`: load a signed integer into a register, either as
one biased `LDINT` or as an `LDINT`/`LDINTX` pair (the C arithmetic right
shift is floor division). -/
def duk__emit_loadint (f : duk_compiler_func) (line : Nat) (reg : Nat) (val : Int) :
    Except DukError duk_compiler_func :=
  if 0 - (DUK_BC_LDINT_BIAS : Int) ≤ val ∧ val ≤ (DUK_BC_BC_MAX : Int) - DUK_BC_LDINT_BIAS then
    duk__emit_a_bc f line DUK_OP_LDINT reg (val + DUK_BC_LDINT_BIAS).toNat
  else
    let lo : Int := val.emod (2 ^ DUK_BC_LDINTX_SHIFT)
    let hi : Int := (val - lo) / (2 ^ DUK_BC_LDINTX_SHIFT)
    match duk__emit_a_bc f line DUK_OP_LDINT reg (hi + DUK_BC_LDINT_BIAS).toNat with
    | .error e => .error e
    | .ok f => duk__emit_a_bc f line DUK_OP_LDINTX reg lo.toNat

/-- Model of `duk__emit_a_b_c`: the main emitter.  Handles the const-marker bits
in slots B/C, spills oversized operands through the three shuffle
registers, switches call-setup/call/object-construction opcodes to their
indirect variants when their register-range operand must be shuffled, and
fails with a range error when shuffling is prohibited or the operand
exceeds the 18-bit limit. -/
def duk__emit_a_b_c (f : duk_compiler_func) (line : Nat) (op_flags a b c : Nat) :
    Except DukError duk_compiler_func := do
  -- Slot A
  let (f, op_flags, a, a_out) ←
    if a ≤ DUK_BC_A_MAX then
      pure (f, op_flags, a, 0)
    else if duk__opflag op_flags DUK__EMIT_FLAG_NO_SHUFFLE_A then
      throw ⟨.DUK_ERR_RANGE_ERROR, "out of regs"⟩
    else if a ≤ DUK_BC_BC_MAX then do
      let f := { f with needs_shuffle := true }
      let tmp := f.shuffle1
      if duk__opflag op_flags DUK__EMIT_FLAG_A_IS_SOURCE then
        pure (duk__emit f line (DUK_ENC_OP_A_BC DUK_OP_LDREG tmp a), op_flags, tmp, 0)
      else
        let op := op_flags % 2 ^ 8
        if op = DUK_OP_CSVAR ∨ op = DUK_OP_CSREG ∨ op = DUK_OP_CSPROP then do
          let f ← duk__emit_loadint f line tmp a
          pure (f, op_flags + 1, tmp, 0)
        else
          pure (f, op_flags, tmp, a)
    else
      throw ⟨.DUK_ERR_RANGE_ERROR, "out of regs"⟩
  -- Slot B
  let (f, op_flags, b, b_out, b_constflag) ←
    if duk__is_const_marked b then
      let b := duk__clear_const_marker b
      if b ≤ 0xff then
        pure (f, op_flags, b, 0, true)
      else if b ≤ DUK_BC_BC_MAX then
        let f := { f with needs_shuffle := true }
        let tmp := f.shuffle2
        pure (duk__emit f line (DUK_ENC_OP_A_BC DUK_OP_LDCONST tmp b), op_flags, tmp, 0, false)
      else
        throw ⟨.DUK_ERR_RANGE_ERROR, "out of regs"⟩
    else
      if b ≤ 0xff then
        pure (f, op_flags, b, 0, false)
      else if duk__opflag op_flags DUK__EMIT_FLAG_NO_SHUFFLE_B then
        if b > DUK_BC_B_MAX then
          throw ⟨.DUK_ERR_RANGE_ERROR, "out of regs"⟩
        else
          pure (f, op_flags, b, 0, false)
      else if b ≤ DUK_BC_BC_MAX then
        let f := { f with needs_shuffle := true }
        let tmp := f.shuffle2
        if duk__opflag op_flags DUK__EMIT_FLAG_B_IS_TARGET then
          pure (f, op_flags, tmp, b, false)
        else
          let op := op_flags % 2 ^ 8
          if op = DUK_OP_CALL ∨ op = DUK_OP_NEW ∨ op = DUK_OP_MPUTOBJ ∨ op = DUK_OP_MPUTARR then do
            let f ← duk__emit_loadint f line tmp b
            pure (f, op_flags + 1, tmp, 0, false)
          else
            pure (duk__emit f line (DUK_ENC_OP_A_BC DUK_OP_LDREG tmp b), op_flags, tmp, 0, false)
      else
        throw ⟨.DUK_ERR_RANGE_ERROR, "out of regs"⟩
  -- Slot C
  let (f, a, c, c_out, c_constflag) ←
    if duk__is_const_marked c then
      let c := duk__clear_const_marker c
      if c ≤ 0xff then
        pure (f, a, c, 0, true)
      else if c ≤ DUK_BC_BC_MAX then
        let f := { f with needs_shuffle := true }
        let tmp := f.shuffle3
        pure (duk__emit f line (DUK_ENC_OP_A_BC DUK_OP_LDCONST tmp c), a, tmp, 0, false)
      else
        throw ⟨.DUK_ERR_RANGE_ERROR, "out of regs"⟩
    else
      if c ≤ 0xff then
        pure (f, a, c, 0, false)
      else if duk__opflag op_flags DUK__EMIT_FLAG_NO_SHUFFLE_C then
        if c > DUK_BC_C_MAX then
          throw ⟨.DUK_ERR_RANGE_ERROR, "out of regs"⟩
        else
          pure (f, a, c, 0, false)
      else if c ≤ DUK_BC_BC_MAX then
        let f := { f with needs_shuffle := true }
        let tmp := f.shuffle3
        if duk__opflag op_flags DUK__EMIT_FLAG_C_IS_TARGET then
          pure (f, a, tmp, c, false)
        else
          let op := op_flags % 2 ^ 8
          if op = DUK_OP_EXTRA ∧ (a = DUK_EXTRAOP_INITGET ∨ a = DUK_EXTRAOP_INITSET) then do
            let f ← duk__emit_loadint f line tmp c
            pure (f, a + 1, tmp, 0, false)
          else
            pure (duk__emit f line (DUK_ENC_OP_A_BC DUK_OP_LDREG tmp c), a, tmp, 0, false)
      else
        throw ⟨.DUK_ERR_RANGE_ERROR, "out of regs"⟩
  -- Main operation (const-flag bits are bit 8 of the B/C fields)
  let b_field := b + (if b_constflag then 0x100 else 0)
  let c_field := c + (if c_constflag then 0x100 else 0)
  let f := duk__emit f line (DUK_ENC_OP_A_B_C (op_flags % 2 ^ 8) a b_field c_field)
  -- Output shuffling
  if a_out ≠ 0 then
    pure (duk__emit f line (DUK_ENC_OP_A_BC DUK_OP_STREG a a_out))
  else if b_out ≠ 0 then
    pure (duk__emit f line (DUK_ENC_OP_A_BC DUK_OP_STREG b b_out))
  else if c_out ≠ 0 then
    pure (duk__emit f line (DUK_ENC_OP_A_BC DUK_OP_STREG c c_out))
  else
    pure f

def duk__emit_a_b (f : duk_compiler_func) (line : Nat) (op_flags a b : Nat) :
    Except DukError duk_compiler_func :=
  duk__emit_a_b_c f line op_flags a b 0

def duk__get_current_pc (f : duk_compiler_func) : Nat :=
  f.h_code.length

/-- Model of `duk__emit_jump`: emit an unconditional jump to `target_pc` (biased
signed offset relative to the following pc). -/
def duk__emit_jump (f : duk_compiler_func) (line : Nat) (target_pc : Nat) : duk_compiler_func :=
  let curr_pc := f.h_code.length
  let offset : Int := (target_pc : Int) - curr_pc - 1
  duk__emit_abc f line DUK_OP_JUMP (offset + DUK_BC_JUMP_BIAS).toNat

/-- Model of `duk__emit_jump_empty`: emit a to-be-patched jump, returning its pc. -/
def duk__emit_jump_empty (f : duk_compiler_func) (line : Nat) : duk_compiler_func × Nat :=
  (duk__emit_abc f line DUK_OP_JUMP 0, f.h_code.length)

/-- Overwrite the instruction word at `pc` (helper for jump patching). -/
def duk__set_instr_ins (code : List duk_compiler_instr) (pc : Nat) (ins : Nat) :
    List duk_compiler_instr :=
  match code.get? pc with
  | some instr => code.set pc { instr with ins := ins }
  | none => code

/-- Model of `duk__patch_jump`: rewrite the jump at `jump_pc` to target
`target_pc`; negative `jump_pc` marks an omitted jump and is a no-op. -/
def duk__patch_jump (f : duk_compiler_func) (jump_pc : Int) (target_pc : Nat) :
    duk_compiler_func :=
  if jump_pc < 0 then f
  else
    let offset : Int := (target_pc : Int) - jump_pc - 1
    let ins := DUK_ENC_OP_ABC DUK_OP_JUMP (offset + DUK_BC_JUMP_BIAS).toNat
    { f with h_code := duk__set_instr_ins f.h_code jump_pc.toNat ins }

/-!  ## Peephole optimizer (`duk__peephole_optimize_bytecode`)

The source iterates up to `DUK_COMPILER_PEEPHOLE_MAXITER` passes; each
pass walks the instruction array in place, rewriting every `JUMP` whose
target holds another `JUMP` to jump to the latter's target.  The C code
only asserts (does not check) that a jump target is inside the array; the
model skips an out-of-range read, and the theorems that need the targets
assume them in bounds. -/
/-- The biased signed target of a jump instruction word at pc `i`:
`i + 1 + ABC - bias`. -/
def duk__jump_target (i : Nat) (ins : Nat) : Int :=
  (i : Int) + 1 + DUK_DEC_ABC ins - DUK_BC_JUMP_BIAS

/-- The inner `for (i = 0; i < n; i++)` loop of one peephole pass;
`remaining` counts the indices still to visit. -/
def duk__peephole_pass_iter :
    List duk_compiler_instr → Nat → Nat → Nat → List duk_compiler_instr × Nat
  | bc, _, count_opt, 0 => (bc, count_opt)
  | bc, i, count_opt, remaining + 1 =>
    match bc.get? i with
    | none => duk__peephole_pass_iter bc (i + 1) count_opt remaining
    | some instr =>
      if DUK_DEC_OP instr.ins = DUK_OP_JUMP then
        let target_pc1 : Int := duk__jump_target i instr.ins
        if target_pc1 < 0 then
          duk__peephole_pass_iter bc (i + 1) count_opt remaining
        else
          match bc.get? target_pc1.toNat with
          | none => duk__peephole_pass_iter bc (i + 1) count_opt remaining
          | some instr2 =>
            if DUK_DEC_OP instr2.ins = DUK_OP_JUMP then
              let target_pc2 : Int := duk__jump_target target_pc1.toNat instr2.ins
              let newins := DUK_ENC_OP_ABC DUK_OP_JUMP
                (target_pc2 - ((i : Int) + 1) + DUK_BC_JUMP_BIAS).toNat
              duk__peephole_pass_iter (bc.set i { instr with ins := newins })
                (i + 1) (count_opt + 1) remaining
            else
              duk__peephole_pass_iter bc (i + 1) count_opt remaining
      else
        duk__peephole_pass_iter bc (i + 1) count_opt remaining

/-- One peephole pass over the whole instruction array, returning the
rewritten array and the number of rewrites (`count_opt`). -/
def duk__peephole_pass (bc : List duk_compiler_instr) : List duk_compiler_instr × Nat :=
  duk__peephole_pass_iter bc 0 0 bc.length

/-- The outer bounded iteration: run passes until one makes no rewrites
or the iteration cap is exhausted. -/
def duk__peephole_optimize_loop : Nat → List duk_compiler_instr → List duk_compiler_instr
  | 0, bc => bc
  | iter + 1, bc =>
    let r := duk__peephole_pass bc
    if r.2 = 0 then r.1 else duk__peephole_optimize_loop iter r.1

/-- Modelled from the spec: `DUK_COMPILER_PEEPHOLE_MAXITER` lives in a
header that is not in src; the spec fixes only that the number of passes
is a fixed finite cap.  The theorems below quantify over the cap; this
representative value is used for concrete evaluations. -/
def DUK_COMPILER_PEEPHOLE_MAXITER : Nat := 3

def duk__peephole_optimize_bytecode (maxiter : Nat) (bc : List duk_compiler_instr) :
    List duk_compiler_instr :=
  duk__peephole_optimize_loop maxiter bc

/-!  Specification-side description of the peephole pass, following the
spec's words for claim C4: "for every `JUMP pc1 → t1`, if the instruction
at `t1` is also a `JUMP pc → t2`, rewrite the original to jump directly
to `t2`"; a pass visits every pc once, in place; the optimizer stops
after the first pass with zero rewrites or at the cap. -/
/-- The single rewrite the spec describes, at one pc (`none` when the
instruction is not a jump-to-jump). -/
def peephole_spec_rewrite_at (bc : List duk_compiler_instr) (pc1 : Nat) :
    Option duk_compiler_instr :=
  match bc.get? pc1 with
  | none => none
  | some instr =>
    if DUK_DEC_OP instr.ins = DUK_OP_JUMP then
      let t1 : Int := duk__jump_target pc1 instr.ins
      if t1 < 0 then none
      else
        match bc.get? t1.toNat with
        | none => none
        | some instr2 =>
          if DUK_DEC_OP instr2.ins = DUK_OP_JUMP then
            let t2 : Int := duk__jump_target t1.toNat instr2.ins
            some { instr with
              ins := DUK_ENC_OP_ABC DUK_OP_JUMP (t2 - ((pc1 : Int) + 1) + DUK_BC_JUMP_BIAS).toNat }
          else none
    else none

/-- Spec-side pass: visit `fuel` consecutive pcs starting at `i`,
applying the rewrite in place where it applies, and count the rewrites
made. -/
def peephole_spec_passFrom :
    List duk_compiler_instr → Nat → Nat → List duk_compiler_instr × Nat
  | bc, _, 0 => (bc, 0)
  | bc, i, fuel + 1 =>
    match peephole_spec_rewrite_at bc i with
    | some instr2 =>
      let r := peephole_spec_passFrom (bc.set i instr2) (i + 1) fuel
      (r.1, r.2 + 1)
    | none => peephole_spec_passFrom bc (i + 1) fuel

def peephole_spec_pass (bc : List duk_compiler_instr) : List duk_compiler_instr × Nat :=
  peephole_spec_passFrom bc 0 bc.length

/-- Spec-side optimizer: up to `cap` passes, stopping after the first
pass that makes zero rewrites. -/
def peephole_spec_run : Nat → List duk_compiler_instr → List duk_compiler_instr
  | 0, bc => bc
  | cap + 1, bc =>
    let r := peephole_spec_pass bc
    if r.2 = 0 then r.1 else peephole_spec_run cap r.1

/-!  ## Peephole lemmas  -/
def duk__default_instr : duk_compiler_instr := ⟨0, 0⟩

/-- Every `JUMP` in the code targets a pc inside the array. -/
def duk__jumps_in_bounds (bc : List duk_compiler_instr) : Bool :=
  (List.range bc.length).all fun i =>
    match bc.get? i with
    | none => true
    | some instr =>
      if DUK_DEC_OP instr.ins = DUK_OP_JUMP then
        decide (0 ≤ duk__jump_target i instr.ins ∧ duk__jump_target i instr.ins < bc.length)
      else true

/-- No `JUMP` whose target is inside the array targets another `JUMP`. -/
def duk__no_jump_to_jump (bc : List duk_compiler_instr) : Bool :=
  (List.range bc.length).all fun i =>
    match bc.get? i with
    | none => true
    | some instr =>
      if DUK_DEC_OP instr.ins = DUK_OP_JUMP then
        let t := duk__jump_target i instr.ins
        if 0 ≤ t ∧ t < bc.length then
          match bc.get? t.toNat with
          | none => true
          | some instr2 => decide (DUK_DEC_OP instr2.ins ≠ DUK_OP_JUMP)
        else true
      else true

/-!  ## Token tags and the Pratt lbp table (`duk__token_lbp`)  -/
/-- Token tags (`DUK_TOK_*`, in the table order of the source). -/
inductive DukTok where
  | DUK_TOK_EOF
  | DUK_TOK_LINETERM
  | DUK_TOK_COMMENT
  | DUK_TOK_IDENTIFIER
  | DUK_TOK_BREAK
  | DUK_TOK_CASE
  | DUK_TOK_CATCH
  | DUK_TOK_CONTINUE
  | DUK_TOK_DEBUGGER
  | DUK_TOK_DEFAULT
  | DUK_TOK_DELETE
  | DUK_TOK_DO
  | DUK_TOK_ELSE
  | DUK_TOK_FINALLY
  | DUK_TOK_FOR
  | DUK_TOK_FUNCTION
  | DUK_TOK_IF
  | DUK_TOK_IN
  | DUK_TOK_INSTANCEOF
  | DUK_TOK_NEW
  | DUK_TOK_RETURN
  | DUK_TOK_SWITCH
  | DUK_TOK_THIS
  | DUK_TOK_THROW
  | DUK_TOK_TRY
  | DUK_TOK_TYPEOF
  | DUK_TOK_VAR
  | DUK_TOK_VOID
  | DUK_TOK_WHILE
  | DUK_TOK_WITH
  | DUK_TOK_CLASS
  | DUK_TOK_CONST
  | DUK_TOK_ENUM
  | DUK_TOK_EXPORT
  | DUK_TOK_EXTENDS
  | DUK_TOK_IMPORT
  | DUK_TOK_SUPER
  | DUK_TOK_NULL
  | DUK_TOK_TRUE
  | DUK_TOK_FALSE
  | DUK_TOK_GET
  | DUK_TOK_SET
  | DUK_TOK_IMPLEMENTS
  | DUK_TOK_INTERFACE
  | DUK_TOK_LET
  | DUK_TOK_PACKAGE
  | DUK_TOK_PRIVATE
  | DUK_TOK_PROTECTED
  | DUK_TOK_PUBLIC
  | DUK_TOK_STATIC
  | DUK_TOK_YIELD
  | DUK_TOK_LCURLY
  | DUK_TOK_RCURLY
  | DUK_TOK_LBRACKET
  | DUK_TOK_RBRACKET
  | DUK_TOK_LPAREN
  | DUK_TOK_RPAREN
  | DUK_TOK_PERIOD
  | DUK_TOK_SEMICOLON
  | DUK_TOK_COMMA
  | DUK_TOK_LT
  | DUK_TOK_GT
  | DUK_TOK_LE
  | DUK_TOK_GE
  | DUK_TOK_EQ
  | DUK_TOK_NEQ
  | DUK_TOK_SEQ
  | DUK_TOK_SNEQ
  | DUK_TOK_ADD
  | DUK_TOK_SUB
  | DUK_TOK_MUL
  | DUK_TOK_DIV
  | DUK_TOK_MOD
  | DUK_TOK_INCREMENT
  | DUK_TOK_DECREMENT
  | DUK_TOK_ALSHIFT
  | DUK_TOK_ARSHIFT
  | DUK_TOK_RSHIFT
  | DUK_TOK_BAND
  | DUK_TOK_BOR
  | DUK_TOK_BXOR
  | DUK_TOK_LNOT
  | DUK_TOK_BNOT
  | DUK_TOK_LAND
  | DUK_TOK_LOR
  | DUK_TOK_QUESTION
  | DUK_TOK_COLON
  | DUK_TOK_EQUALSIGN
  | DUK_TOK_ADD_EQ
  | DUK_TOK_SUB_EQ
  | DUK_TOK_MUL_EQ
  | DUK_TOK_DIV_EQ
  | DUK_TOK_MOD_EQ
  | DUK_TOK_ALSHIFT_EQ
  | DUK_TOK_ARSHIFT_EQ
  | DUK_TOK_RSHIFT_EQ
  | DUK_TOK_BAND_EQ
  | DUK_TOK_BOR_EQ
  | DUK_TOK_BXOR_EQ
  | DUK_TOK_NUMBER
  | DUK_TOK_STRING
  | DUK_TOK_REGEXP
  deriving DecidableEq, Repr

/- Binding power levels (see source lines 224-244). -/
def DUK__BP_INVALID : Nat := 0

def DUK__BP_EOF : Nat := 2

def DUK__BP_CLOSING : Nat := 4

def DUK__BP_FOR_EXPR : Nat := DUK__BP_CLOSING

def DUK__BP_COMMA : Nat := 6

def DUK__BP_ASSIGNMENT : Nat := 8

def DUK__BP_CONDITIONAL : Nat := 10

def DUK__BP_LOR : Nat := 12

def DUK__BP_LAND : Nat := 14

def DUK__BP_BOR : Nat := 16

def DUK__BP_BXOR : Nat := 18

def DUK__BP_BAND : Nat := 20

def DUK__BP_EQUALITY : Nat := 22

def DUK__BP_RELATIONAL : Nat := 24

def DUK__BP_SHIFT : Nat := 26

def DUK__BP_ADDITIVE : Nat := 28

def DUK__BP_MULTIPLICATIVE : Nat := 30

def DUK__BP_POSTFIX : Nat := 32

def DUK__BP_CALL : Nat := 34

def DUK__BP_MEMBER : Nat := 36

def DUK__TOKEN_LBP_BP_MASK : Nat := 0x1f

def DUK__TOKEN_LBP_FLAG_NO_REGEXP : Nat := 2 ^ 5

def DUK__TOKEN_LBP_FLAG_TERMINATES : Nat := 2 ^ 6

def DUK__TOKEN_LBP_GET_BP (x : Nat) : Nat := x % 32 * 2

/-- Model of `DUK__MK_LBP(bp)`: the packed table entry stores `bp >> 1`. -/
def DUK__MK_LBP (bp : Nat) : Nat := bp / 2

/-- Model of `DUK__MK_LBP_FLAGS(bp,flags)`: `bp >> 1` is below 32 and the flags
are single bits at 32/64, so bitwise-or is addition. -/
def DUK__MK_LBP_FLAGS (bp flags : Nat) : Nat := bp / 2 + flags

/-- The static per-token control table `duk__token_lbp`. -/
def duk__token_lbp : DukTok → Nat
  | .DUK_TOK_EOF => DUK__MK_LBP DUK__BP_EOF
  | .DUK_TOK_LINETERM => DUK__MK_LBP DUK__BP_INVALID
  | .DUK_TOK_COMMENT => DUK__MK_LBP DUK__BP_INVALID
  | .DUK_TOK_IDENTIFIER => DUK__MK_LBP_FLAGS DUK__BP_INVALID DUK__TOKEN_LBP_FLAG_NO_REGEXP
  | .DUK_TOK_BREAK => DUK__MK_LBP DUK__BP_INVALID
  | .DUK_TOK_CASE => DUK__MK_LBP DUK__BP_INVALID
  | .DUK_TOK_CATCH => DUK__MK_LBP DUK__BP_INVALID
  | .DUK_TOK_CONTINUE => DUK__MK_LBP DUK__BP_INVALID
  | .DUK_TOK_DEBUGGER => DUK__MK_LBP DUK__BP_INVALID
  | .DUK_TOK_DEFAULT => DUK__MK_LBP DUK__BP_INVALID
  | .DUK_TOK_DELETE => DUK__MK_LBP DUK__BP_INVALID
  | .DUK_TOK_DO => DUK__MK_LBP DUK__BP_INVALID
  | .DUK_TOK_ELSE => DUK__MK_LBP DUK__BP_INVALID
  | .DUK_TOK_FINALLY => DUK__MK_LBP DUK__BP_INVALID
  | .DUK_TOK_FOR => DUK__MK_LBP DUK__BP_INVALID
  | .DUK_TOK_FUNCTION => DUK__MK_LBP DUK__BP_INVALID
  | .DUK_TOK_IF => DUK__MK_LBP DUK__BP_INVALID
  | .DUK_TOK_IN => DUK__MK_LBP DUK__BP_RELATIONAL
  | .DUK_TOK_INSTANCEOF => DUK__MK_LBP DUK__BP_RELATIONAL
  | .DUK_TOK_NEW => DUK__MK_LBP DUK__BP_INVALID
  | .DUK_TOK_RETURN => DUK__MK_LBP DUK__BP_INVALID
  | .DUK_TOK_SWITCH => DUK__MK_LBP DUK__BP_INVALID
  | .DUK_TOK_THIS => DUK__MK_LBP_FLAGS DUK__BP_INVALID DUK__TOKEN_LBP_FLAG_NO_REGEXP
  | .DUK_TOK_THROW => DUK__MK_LBP DUK__BP_INVALID
  | .DUK_TOK_TRY => DUK__MK_LBP DUK__BP_INVALID
  | .DUK_TOK_TYPEOF => DUK__MK_LBP DUK__BP_INVALID
  | .DUK_TOK_VAR => DUK__MK_LBP DUK__BP_INVALID
  | .DUK_TOK_VOID => DUK__MK_LBP DUK__BP_INVALID
  | .DUK_TOK_WHILE => DUK__MK_LBP DUK__BP_INVALID
  | .DUK_TOK_WITH => DUK__MK_LBP DUK__BP_INVALID
  | .DUK_TOK_CLASS => DUK__MK_LBP DUK__BP_INVALID
  | .DUK_TOK_CONST => DUK__MK_LBP DUK__BP_INVALID
  | .DUK_TOK_ENUM => DUK__MK_LBP DUK__BP_INVALID
  | .DUK_TOK_EXPORT => DUK__MK_LBP DUK__BP_INVALID
  | .DUK_TOK_EXTENDS => DUK__MK_LBP DUK__BP_INVALID
  | .DUK_TOK_IMPORT => DUK__MK_LBP DUK__BP_INVALID
  | .DUK_TOK_SUPER => DUK__MK_LBP DUK__BP_INVALID
  | .DUK_TOK_NULL => DUK__MK_LBP_FLAGS DUK__BP_INVALID DUK__TOKEN_LBP_FLAG_NO_REGEXP
  | .DUK_TOK_TRUE => DUK__MK_LBP_FLAGS DUK__BP_INVALID DUK__TOKEN_LBP_FLAG_NO_REGEXP
  | .DUK_TOK_FALSE => DUK__MK_LBP_FLAGS DUK__BP_INVALID DUK__TOKEN_LBP_FLAG_NO_REGEXP
  | .DUK_TOK_GET => DUK__MK_LBP DUK__BP_INVALID
  | .DUK_TOK_SET => DUK__MK_LBP DUK__BP_INVALID
  | .DUK_TOK_IMPLEMENTS => DUK__MK_LBP DUK__BP_INVALID
  | .DUK_TOK_INTERFACE => DUK__MK_LBP DUK__BP_INVALID
  | .DUK_TOK_LET => DUK__MK_LBP DUK__BP_INVALID
  | .DUK_TOK_PACKAGE => DUK__MK_LBP DUK__BP_INVALID
  | .DUK_TOK_PRIVATE => DUK__MK_LBP DUK__BP_INVALID
  | .DUK_TOK_PROTECTED => DUK__MK_LBP DUK__BP_INVALID
  | .DUK_TOK_PUBLIC => DUK__MK_LBP DUK__BP_INVALID
  | .DUK_TOK_STATIC => DUK__MK_LBP DUK__BP_INVALID
  | .DUK_TOK_YIELD => DUK__MK_LBP DUK__BP_INVALID
  | .DUK_TOK_LCURLY => DUK__MK_LBP DUK__BP_INVALID
  | .DUK_TOK_RCURLY => DUK__MK_LBP_FLAGS DUK__BP_INVALID DUK__TOKEN_LBP_FLAG_NO_REGEXP
  | .DUK_TOK_LBRACKET => DUK__MK_LBP DUK__BP_MEMBER
  | .DUK_TOK_RBRACKET => DUK__MK_LBP_FLAGS DUK__BP_CLOSING DUK__TOKEN_LBP_FLAG_NO_REGEXP
  | .DUK_TOK_LPAREN => DUK__MK_LBP DUK__BP_CALL
  | .DUK_TOK_RPAREN => DUK__MK_LBP_FLAGS DUK__BP_CLOSING DUK__TOKEN_LBP_FLAG_NO_REGEXP
  | .DUK_TOK_PERIOD => DUK__MK_LBP DUK__BP_MEMBER
  | .DUK_TOK_SEMICOLON => DUK__MK_LBP DUK__BP_INVALID
  | .DUK_TOK_COMMA => DUK__MK_LBP DUK__BP_COMMA
  | .DUK_TOK_LT => DUK__MK_LBP DUK__BP_RELATIONAL
  | .DUK_TOK_GT => DUK__MK_LBP DUK__BP_RELATIONAL
  | .DUK_TOK_LE => DUK__MK_LBP DUK__BP_RELATIONAL
  | .DUK_TOK_GE => DUK__MK_LBP DUK__BP_RELATIONAL
  | .DUK_TOK_EQ => DUK__MK_LBP DUK__BP_EQUALITY
  | .DUK_TOK_NEQ => DUK__MK_LBP DUK__BP_EQUALITY
  | .DUK_TOK_SEQ => DUK__MK_LBP DUK__BP_EQUALITY
  | .DUK_TOK_SNEQ => DUK__MK_LBP DUK__BP_EQUALITY
  | .DUK_TOK_ADD => DUK__MK_LBP DUK__BP_ADDITIVE
  | .DUK_TOK_SUB => DUK__MK_LBP DUK__BP_ADDITIVE
  | .DUK_TOK_MUL => DUK__MK_LBP DUK__BP_MULTIPLICATIVE
  | .DUK_TOK_DIV => DUK__MK_LBP DUK__BP_MULTIPLICATIVE
  | .DUK_TOK_MOD => DUK__MK_LBP DUK__BP_MULTIPLICATIVE
  | .DUK_TOK_INCREMENT => DUK__MK_LBP DUK__BP_POSTFIX
  | .DUK_TOK_DECREMENT => DUK__MK_LBP DUK__BP_POSTFIX
  | .DUK_TOK_ALSHIFT => DUK__MK_LBP DUK__BP_SHIFT
  | .DUK_TOK_ARSHIFT => DUK__MK_LBP DUK__BP_SHIFT
  | .DUK_TOK_RSHIFT => DUK__MK_LBP DUK__BP_SHIFT
  | .DUK_TOK_BAND => DUK__MK_LBP DUK__BP_BAND
  | .DUK_TOK_BOR => DUK__MK_LBP DUK__BP_BOR
  | .DUK_TOK_BXOR => DUK__MK_LBP DUK__BP_BXOR
  | .DUK_TOK_LNOT => DUK__MK_LBP DUK__BP_INVALID
  | .DUK_TOK_BNOT => DUK__MK_LBP DUK__BP_INVALID
  | .DUK_TOK_LAND => DUK__MK_LBP DUK__BP_LAND
  | .DUK_TOK_LOR => DUK__MK_LBP DUK__BP_LOR
  | .DUK_TOK_QUESTION => DUK__MK_LBP DUK__BP_CONDITIONAL
  | .DUK_TOK_COLON => DUK__MK_LBP DUK__BP_INVALID
  | .DUK_TOK_EQUALSIGN => DUK__MK_LBP DUK__BP_ASSIGNMENT
  | .DUK_TOK_ADD_EQ => DUK__MK_LBP DUK__BP_ASSIGNMENT
  | .DUK_TOK_SUB_EQ => DUK__MK_LBP DUK__BP_ASSIGNMENT
  | .DUK_TOK_MUL_EQ => DUK__MK_LBP DUK__BP_ASSIGNMENT
  | .DUK_TOK_DIV_EQ => DUK__MK_LBP DUK__BP_ASSIGNMENT
  | .DUK_TOK_MOD_EQ => DUK__MK_LBP DUK__BP_ASSIGNMENT
  | .DUK_TOK_ALSHIFT_EQ => DUK__MK_LBP DUK__BP_ASSIGNMENT
  | .DUK_TOK_ARSHIFT_EQ => DUK__MK_LBP DUK__BP_ASSIGNMENT
  | .DUK_TOK_RSHIFT_EQ => DUK__MK_LBP DUK__BP_ASSIGNMENT
  | .DUK_TOK_BAND_EQ => DUK__MK_LBP DUK__BP_ASSIGNMENT
  | .DUK_TOK_BOR_EQ => DUK__MK_LBP DUK__BP_ASSIGNMENT
  | .DUK_TOK_BXOR_EQ => DUK__MK_LBP DUK__BP_ASSIGNMENT
  | .DUK_TOK_NUMBER => DUK__MK_LBP_FLAGS DUK__BP_INVALID DUK__TOKEN_LBP_FLAG_NO_REGEXP
  | .DUK_TOK_STRING => DUK__MK_LBP_FLAGS DUK__BP_INVALID DUK__TOKEN_LBP_FLAG_NO_REGEXP
  | .DUK_TOK_REGEXP => DUK__MK_LBP_FLAGS DUK__BP_INVALID DUK__TOKEN_LBP_FLAG_NO_REGEXP

/-- The token fields the embedded operations read (`duk_token`). -/
structure duk_token where
  t : DukTok
  lineterm : Bool := false
  allow_auto_semi : Bool := false
  str1 : String := ""
  start_line : Nat := 0
  deriving DecidableEq, Repr

/-- Model of `duk__expr_lbp`: the binding power the Pratt loop compares against.
Returns 0 (terminating the expression) for `in` when `allow_in` is
cleared, and for `++`/`--` preceded by a line terminator. -/
def duk__expr_lbp (curr_token : duk_token) (allow_in : Bool) : Nat :=
  let tok := curr_token.t
  if tok = .DUK_TOK_IN ∧ ¬allow_in then 0
  else if (tok = .DUK_TOK_DECREMENT ∨ tok = .DUK_TOK_INCREMENT) ∧ curr_token.lineterm then 0
  else DUK__TOKEN_LBP_GET_BP (duk__token_lbp tok)

/-!  ## Label records, lookup, break/continue (`duk__lookup_active_label`,
`duk__parse_break_or_continue_stmt`)  -/
/- Label flag bits; the numeric values live in a header not in src and
are modelled from the spec ("flags ∈ \x7ballow_break, allow_continue\x7d"). -/
def DUK_LABEL_FLAG_ALLOW_BREAK : Nat := 1

def DUK_LABEL_FLAG_ALLOW_CONTINUE : Nat := 2

/-- One active label record (`duk_labelinfo`). -/
structure duk_labelinfo where
  flags : Nat
  label_id : Nat
  h_label : String
  catch_depth : Nat
  pc_label : Nat
  deriving DecidableEq, Repr

/-- The scan loop of `duk__lookup_active_label`: walk records from the
newest; a break matches any record with the right name, a continue only a
record allowing continue; a named continue hitting a non-continue record
is a SyntaxError; an unmatched lookup is a SyntaxError.  The Bool
accumulator records whether the match is the newest record
(`li == li_end - 1`, reported as `out_is_closest`). -/
def duk__lookup_scan :
    List duk_labelinfo → String → Bool → Bool → Except DukError (duk_labelinfo × Bool)
  | [], _, _, _ => .error ⟨.DUK_ERR_SYNTAX_ERROR, "cannot resolve label"⟩
  | li :: rest, h_label, is_break, at_top =>
    if li.h_label ≠ h_label then
      duk__lookup_scan rest h_label is_break false
    else if is_break then
      .ok (li, at_top)
    else if li.flags / DUK_LABEL_FLAG_ALLOW_CONTINUE % 2 = 1 then
      .ok (li, at_top)
    else if h_label ≠ "" then
      .error ⟨.DUK_ERR_SYNTAX_ERROR, "continue label matches an invalid statement type"⟩
    else
      duk__lookup_scan rest h_label is_break false

/-- Model of `duk__lookup_active_label` over the label stack (oldest first, as the
compiler stores it; the scan starts from the newest record). -/
def duk__lookup_active_label (labelinfos : List duk_labelinfo) (h_label : String)
    (is_break : Bool) : Except DukError (duk_labelinfo × Bool) :=
  duk__lookup_scan labelinfos.reverse h_label is_break true

/-- The emission decision of `duk__parse_break_or_continue_stmt` after
label lookup: fast direct `JUMP` to the label site's break (`pc_label+1`)
or continue (`pc_label+2`) slot when the record's catch depth equals the
current one and the record is the closest; otherwise a slow
`BREAK`/`CONTINUE` carrying the label id. -/
def duk__parse_break_or_continue_emit (f : duk_compiler_func) (line : Nat)
    (is_break : Bool) (li : duk_labelinfo) (label_is_closest : Bool) : duk_compiler_func :=
  if li.catch_depth = f.catch_depth ∧ label_is_closest then
    duk__emit_jump f line (li.pc_label + (if is_break then 1 else 2))
  else
    duk__emit_abc f line (if is_break then DUK_OP_BREAK else DUK_OP_CONTINUE) li.label_id

/-- Model of `duk__parse_break_or_continue_stmt` from the point where the label
name has been read: resolve the label, then emit. -/
def duk__parse_break_or_continue_stmt_resolved (f : duk_compiler_func) (line : Nat)
    (labelinfos : List duk_labelinfo) (h_label : String) (is_break : Bool) :
    Except DukError duk_compiler_func :=
  match duk__lookup_active_label labelinfos h_label is_break with
  | .error e => .error e
  | .ok (li, closest) => .ok (duk__parse_break_or_continue_emit f line is_break li closest)

/-!  ## Return statement (`duk__parse_return_stmt`)  -/
/-- The common `RETURN` tail of `duk__parse_return_stmt`: add the `FAST`
flag when no catchers are active, then emit `RETURN` via the A/B
emitter. -/
def duk__emit_ret (f : duk_compiler_func) (line : Nat) (ret_flags0 reg : Nat) :
    Except DukError duk_compiler_func :=
  let ret_flags := if f.catch_depth = 0 then ret_flags0 + DUK_BC_RETURN_FLAG_FAST else ret_flags0
  duk__emit_a_b f line DUK_OP_RETURN ret_flags reg

/-- The emission part of `duk__parse_return_stmt`, starting after the
return expression (if any) has been compiled into `f`'s code buffer.
`nonstd_caller` models the compile-time option
`DUK_USE_FUNC_NONSTD_CALLER_PROPERTY` which disables tail calls;
`pc_before_expr` is the pc captured before compiling the expression;
`reg_val` is the expression's reg/const (0 when there is no expression,
as in the source). -/
def duk__parse_return_stmt_value (nonstd_caller : Bool) (f : duk_compiler_func)
    (line : Nat) (has_expr : Bool) (pc_before_expr : Nat) (reg_val : Nat) :
    Except DukError duk_compiler_func :=
  if ¬f.is_function then
    .error ⟨.DUK_ERR_SYNTAX_ERROR, "invalid return"⟩
  else if has_expr then
    let pc_after_expr := f.h_code.length
    if ¬nonstd_caller ∧ f.catch_depth = 0 ∧ pc_before_expr < pc_after_expr then
      match f.h_code.get? (pc_after_expr - 1) with
      | some instr =>
        if DUK_DEC_OP instr.ins = DUK_OP_CALL ∨ DUK_DEC_OP instr.ins = DUK_OP_CALLI then
          let newins := Nat.lor instr.ins (DUK_ENC_OP_A_B_C 0 DUK_BC_CALL_FLAG_TAILCALL 0 0)
          .ok { f with h_code := duk__set_instr_ins f.h_code (pc_after_expr - 1) newins }
        else
          duk__emit_ret f line DUK_BC_RETURN_FLAG_HAVE_RETVAL reg_val
      | none =>
        duk__emit_ret f line DUK_BC_RETURN_FLAG_HAVE_RETVAL reg_val
    else
      duk__emit_ret f line DUK_BC_RETURN_FLAG_HAVE_RETVAL reg_val
  else
    duk__emit_ret f line 0 0

/-!  ## End of `duk__parse_func_body` pass 2: final RETURN + peephole  -/
/-- The tail of `duk__parse_func_body` after the pass-2 statements: emit
the unconditional final `RETURN` (with `HAVE_RETVAL` and the implicit
return-value register for program/eval code, plain otherwise; always
`FAST`, as `catch_depth == 0` holds here), then run the peephole
optimizer over the whole code buffer. -/
def duk__parse_func_body_finish (maxiter : Nat) (f : duk_compiler_func) (line : Nat)
    (reg_stmt_value : Int) : Except DukError duk_compiler_func :=
  let emitted :=
    if 0 ≤ reg_stmt_value then
      duk__emit_a_b f line DUK_OP_RETURN
        (DUK_BC_RETURN_FLAG_HAVE_RETVAL + DUK_BC_RETURN_FLAG_FAST) reg_stmt_value.toNat
    else
      duk__emit_a_b f line DUK_OP_RETURN DUK_BC_RETURN_FLAG_FAST 0
  match emitted with
  | .error e => .error e
  | .ok f => .ok { f with h_code := duk__peephole_optimize_bytecode maxiter f.h_code }

/-!  ## Pass-2 formal-name validation
(`duk__init_varmap_and_prologue_for_pass2`, formals loop)  -/
def duk__hstring_is_eval_or_arguments (s : String) : Bool :=
  s == "eval" || s == "arguments"

/-- Modelled from the spec: `DUK_HSTRING_HAS_STRICT_RESERVED_WORD` is a
string-system flag (outside src) marking the ES5 words reserved only in
strict mode. -/
def DUK_HSTRING_HAS_STRICT_RESERVED_WORD (s : String) : Bool :=
  ["implements", "interface", "let", "package", "private",
   "protected", "public", "static", "yield"].contains s

/-- The compiler's varmap, modelled as an insertion-ordered association
list from names to register indices. -/
def duk__varmap_put (varmap : List (String × Nat)) (name : String) (i : Nat) :
    List (String × Nat) :=
  match varmap with
  | [] => [(name, i)]
  | (k, v) :: rest => if k = name then (k, i) :: rest else (k, v) :: duk__varmap_put rest name i

def duk__varmap_has (varmap : List (String × Nat)) (name : String) : Bool :=
  varmap.any fun kv => kv.1 == name

/-- The formal-argument loop of `duk__init_varmap_and_prologue_for_pass2`
(source lines 6068-6109), run at the start of pass 2 with the function's
final strictness: in strict mode a formal named `eval`/`arguments`, a
duplicate formal (already present in the varmap) or a strict-reserved
word is a SyntaxError; otherwise the binding is overwritten so the last
formal of a given name wins. -/
def duk__init_varmap_formals_loop (is_strict : Bool) :
    List String → Nat → List (String × Nat) → Except DukError (List (String × Nat))
  | [], _, varmap => .ok varmap
  | h_name :: rest, i, varmap =>
    if is_strict ∧ duk__hstring_is_eval_or_arguments h_name then
      .error ⟨.DUK_ERR_SYNTAX_ERROR, "invalid arg name"⟩
    else if is_strict ∧ duk__varmap_has varmap h_name then
      .error ⟨.DUK_ERR_SYNTAX_ERROR, "invalid arg name"⟩
    else if is_strict ∧ DUK_HSTRING_HAS_STRICT_RESERVED_WORD h_name then
      .error ⟨.DUK_ERR_SYNTAX_ERROR, "invalid arg name"⟩
    else
      duk__init_varmap_formals_loop is_strict rest (i + 1) (duk__varmap_put varmap h_name i)

def duk__init_varmap_formals (is_strict : Bool) (argnames : List String) :
    Except DukError (List (String × Nat)) :=
  duk__init_varmap_formals_loop is_strict argnames 0 []

/-!  ## Top-level driver (`duk_js_compile`)  -/
/-- A value thrown during compilation, as the protected-call boundary
sees it: an error object (whose `message` property may in principle be
absent) or a non-object value.  Errors raised through `DUK_ERROR` are
always error objects with a message. -/
inductive duk_throwval where
  | errobj (code : DukErrCode) (message : Option String)
  | nonobj (v : duk_tval)
  deriving DecidableEq, Repr

/-- The error object produced by the compiler's failure channel. -/
def duk__js_compile_raw_throwval (e : DukError) : duk_throwval :=
  .errobj e.code (some e.message)

/-- The annotation step of `duk_js_compile`'s catch branch: when the
caught value is an object with a `message` property, append
`" (line N)"` where `N` is `curr_token.start_line`; otherwise leave the
value as is. -/
def duk__compile_add_line_info (tv : duk_throwval) (curr_token_start_line : Nat) :
    duk_throwval :=
  match tv with
  | .errobj code (some msg) =>
    .errobj code (some (msg ++ " (line " ++ Nat.repr curr_token_start_line ++ ")"))
  | x => x

/-- Model of `duk_js_compile`: run the raw compilation under a protected call; on
success return the template, on failure annotate the thrown error with
the lexer's current token line and rethrow. -/
def duk_js_compile {α : Type} (raw_result : Except DukError α)
    (curr_token_start_line : Nat) : Except duk_throwval α :=
  match raw_result with
  | .ok t => .ok t
  | .error e =>
    .error (duk__compile_add_line_info (duk__js_compile_raw_throwval e) curr_token_start_line)

/-- The claim's tail-call condition, transcribed from the spec's words:
a return expression is present, tail calls are not disabled by the
non-standard caller-property option, no catchers are active, and the last
opcode emitted for the expression (at least one was) is `CALL`/`CALLI`. -/
def duk__return_tailcall_applies (nonstd_caller : Bool) (f : duk_compiler_func)
    (has_expr : Bool) (pc_before_expr : Nat) : Bool :=
  has_expr && !nonstd_caller && (f.catch_depth == 0) &&
    decide (pc_before_expr < f.h_code.length) &&
    (match f.h_code.get? (f.h_code.length - 1) with
     | some last => (DUK_DEC_OP last.ins == DUK_OP_CALL) || (DUK_DEC_OP last.ins == DUK_OP_CALLI)
     | none => false)

/-- Concrete function state for the C5 witness: one `CALL` instruction
emitted by the return expression, no catchers. -/
def duk__c5_witness_func : duk_compiler_func :=
  { h_code := [⟨DUK_ENC_OP_A_B_C DUK_OP_CALL 0 0 0, 1⟩] }

def duk__c6_witness_func : duk_compiler_func := {}

def duk__c6_witness_label : duk_labelinfo := ⟨3, 0, "", 0, 0⟩

/-!  ## Theorems  -/

/- Decode/encode round-trip lemmas (fields are disjoint when in range). -/
theorem DUK_DEC_OP_ENC_ABC (op abc : Nat) (h : op < 2 ^ 6) :
    DUK_DEC_OP (DUK_ENC_OP_ABC op abc) = op := by
  simp only [DUK_DEC_OP, DUK_ENC_OP_ABC]
  omega

theorem DUK_DEC_ABC_ENC_ABC (op abc : Nat) (h1 : op < 2 ^ 6) (h2 : abc < 2 ^ 26) :
    DUK_DEC_ABC (DUK_ENC_OP_ABC op abc) = abc := by
  simp only [DUK_DEC_ABC, DUK_ENC_OP_ABC]
  omega

theorem DUK_DEC_OP_ENC_A_B_C (op a b c : Nat) (h : op < 2 ^ 6) :
    DUK_DEC_OP (DUK_ENC_OP_A_B_C op a b c) = op := by
  simp only [DUK_DEC_OP, DUK_ENC_OP_A_B_C]
  omega

theorem DUK_DEC_A_ENC_A_B_C (op a b c : Nat)
    (h1 : op < 2 ^ 6) (h2 : a < 2 ^ 8) (h3 : b < 2 ^ 9) (h4 : c < 2 ^ 9) :
    DUK_DEC_A (DUK_ENC_OP_A_B_C op a b c) = a := by
  simp only [DUK_DEC_A, DUK_ENC_OP_A_B_C]
  omega

theorem DUK_DEC_B_ENC_A_B_C (op a b c : Nat)
    (h1 : op < 2 ^ 6) (h2 : a < 2 ^ 8) (h3 : b < 2 ^ 9) (h4 : c < 2 ^ 9) :
    DUK_DEC_B (DUK_ENC_OP_A_B_C op a b c) = b := by
  simp only [DUK_DEC_B, DUK_ENC_OP_A_B_C]
  omega

theorem DUK_DEC_C_ENC_A_B_C (op a b c : Nat)
    (h1 : op < 2 ^ 6) (h2 : a < 2 ^ 8) (h3 : b < 2 ^ 9) (h4 : c < 2 ^ 9) :
    DUK_DEC_C (DUK_ENC_OP_A_B_C op a b c) = c := by
  simp only [DUK_DEC_C, DUK_ENC_OP_A_B_C]
  omega

theorem duk__jumps_in_bounds_iff (bc : List duk_compiler_instr) :
    duk__jumps_in_bounds bc = true ↔
      ∀ i instr, bc.get? i = some instr → DUK_DEC_OP instr.ins = DUK_OP_JUMP →
        0 ≤ duk__jump_target i instr.ins ∧ duk__jump_target i instr.ins < bc.length := by
  unfold duk__jumps_in_bounds
  rw [List.all_eq_true]
  constructor
  · intro h i instr hget hop
    have hi : i < bc.length := by
      by_contra hlt
      rw [List.get?_eq_getElem?, List.getElem?_eq_none (by omega)] at hget
      exact Option.noConfusion hget
    have := h i (List.mem_range.mpr hi)
    rw [hget] at this
    simp only [hop, if_pos rfl] at this
    exact of_decide_eq_true this
  · intro h i _
    cases hget : bc.get? i with
    | none => simp
    | some instr =>
      simp only []
      by_cases hop : DUK_DEC_OP instr.ins = DUK_OP_JUMP
      · simp only [hop, if_pos rfl]
        exact decide_eq_true (h i instr hget hop)
      · simp [hop]

theorem duk__no_jump_to_jump_iff (bc : List duk_compiler_instr) :
    duk__no_jump_to_jump bc = true ↔
      ∀ i instr instr2, bc.get? i = some instr → DUK_DEC_OP instr.ins = DUK_OP_JUMP →
        0 ≤ duk__jump_target i instr.ins → duk__jump_target i instr.ins < bc.length →
        bc.get? (duk__jump_target i instr.ins).toNat = some instr2 →
        DUK_DEC_OP instr2.ins ≠ DUK_OP_JUMP := by
  unfold duk__no_jump_to_jump
  rw [List.all_eq_true]
  constructor
  · intro h i instr instr2 hget hop ht0 htl hget2
    have hi : i < bc.length := by
      by_contra hlt
      rw [List.get?_eq_getElem?, List.getElem?_eq_none (by omega)] at hget
      exact Option.noConfusion hget
    have := h i (List.mem_range.mpr hi)
    rw [hget] at this
    simp only [hop, if_pos rfl] at this
    have hcond : 0 ≤ duk__jump_target i instr.ins ∧
        duk__jump_target i instr.ins < (bc.length : Int) := ⟨ht0, htl⟩
    rw [if_pos hcond] at this
    simp only [hget2] at this
    exact of_decide_eq_true this
  · intro h i _
    cases hget : bc.get? i with
    | none => simp
    | some instr =>
      simp only []
      by_cases hop : DUK_DEC_OP instr.ins = DUK_OP_JUMP
      · simp only [hop, if_pos rfl]
        by_cases hrange : 0 ≤ duk__jump_target i instr.ins ∧ duk__jump_target i instr.ins < bc.length
        · rw [if_pos hrange]
          cases hget2 : bc.get? (duk__jump_target i instr.ins).toNat with
          | none => simp
          | some instr2 =>
            simp only []
            exact decide_eq_true (h i instr instr2 hget hop hrange.1 hrange.2 hget2)
        · simp [if_neg hrange]
      · simp [hop]

theorem duk__peephole_pass_iter_length :
    ∀ (remaining : Nat) (bc : List duk_compiler_instr) (i count : Nat),
      (duk__peephole_pass_iter bc i count remaining).1.length = bc.length := by
  intro remaining
  induction remaining with
  | zero => intro bc i count; rfl
  | succ r ih =>
    intro bc i count
    simp only [duk__peephole_pass_iter]
    repeat' split
    all_goals try exact ih ..
    rw [ih]
    exact List.length_set bc i _

theorem duk__peephole_pass_iter_get_nonjump :
    ∀ (remaining : Nat) (bc : List duk_compiler_instr) (i count j : Nat)
      (instr : duk_compiler_instr),
      bc.get? j = some instr → DUK_DEC_OP instr.ins ≠ DUK_OP_JUMP →
      (duk__peephole_pass_iter bc i count remaining).1.get? j = some instr := by
  intro remaining
  induction remaining with
  | zero => intro bc i count j instr hj hop; exact hj
  | succ r ih =>
    intro bc i count j instr hj hop
    simp only [duk__peephole_pass_iter]
    repeat' split
    all_goals try exact ih _ _ _ _ _ hj hop
    rename_i x1 instr0 hbc h1 h2 x2 instr2 hbc2 h3
    have hij : i ≠ j := by
      intro he
      subst he
      rw [hj] at hbc
      cases hbc
      exact hop h1
    refine ih _ _ _ _ _ ?_ hop
    rw [List.get?_eq_getElem?, List.getElem?_set_ne hij, ← List.get?_eq_getElem?]
    exact hj

theorem list_get?_some_lt {α : Type} (l : List α) (i : Nat) (a : α)
    (h : l.get? i = some a) : i < l.length := by
  by_contra hlt
  rw [List.get?_eq_getElem?, List.getElem?_eq_none (by omega)] at h
  exact Option.noConfusion h

/-- Decoded target of a freshly encoded peephole jump rewrite. -/
theorem duk__jump_target_enc (i : Nat) (t : Int)
    (h0 : 0 ≤ t) (hlt : t < 2 ^ 25) (hi : (i : Int) + 1 ≤ 2 ^ 25) :
    duk__jump_target i
      (DUK_ENC_OP_ABC DUK_OP_JUMP (t - ((i : Int) + 1) + (DUK_BC_JUMP_BIAS : Int)).toNat) = t := by
  have hv : (t - ((i : Int) + 1) + (DUK_BC_JUMP_BIAS : Int)).toNat < 2 ^ 26 := by
    simp only [DUK_BC_JUMP_BIAS] at *
    omega
  unfold duk__jump_target
  rw [DUK_DEC_ABC_ENC_ABC _ _ (by norm_num [DUK_OP_JUMP]) hv]
  simp only [DUK_BC_JUMP_BIAS] at *
  omega

theorem duk__peephole_pass_iter_in_bounds :
    ∀ (remaining : Nat) (bc : List duk_compiler_instr) (i count : Nat),
      bc.length ≤ 2 ^ 25 → duk__jumps_in_bounds bc = true →
      duk__jumps_in_bounds (duk__peephole_pass_iter bc i count remaining).1 = true := by
  intro remaining
  induction remaining with
  | zero => intro bc i count hlen hin; exact hin
  | succ r ih =>
    intro bc i count hlen hin
    simp only [duk__peephole_pass_iter]
    repeat' split
    all_goals try exact ih _ _ _ hlen hin
    rename_i x1 instr0 hbc h1 h2 x2 instr2 hbc2 h3
    apply ih
    · rw [List.length_set]
      exact hlen
    · rw [duk__jumps_in_bounds_iff]
      intro j instrj hgetj hopj
      rw [List.length_set]
      have hilen : i < bc.length := list_get?_some_lt bc i instr0 hbc
      by_cases hij : i = j
      · subst hij
        rw [List.get?_eq_getElem?, List.getElem?_set_eq_of_lt _ hilen] at hgetj
        cases hgetj
        have hb1 := (duk__jumps_in_bounds_iff bc).mp hin i instr0 hbc h1
        have hb2 := (duk__jumps_in_bounds_iff bc).mp hin _ instr2 hbc2 h3
        rw [duk__jump_target_enc i _ hb2.1 (by omega) (by omega)]
        omega
      · rw [List.get?_eq_getElem?, List.getElem?_set_ne hij, ← List.get?_eq_getElem?] at hgetj
        exact (duk__jumps_in_bounds_iff bc).mp hin j instrj hgetj hopj

theorem duk__peephole_pass_iter_count_ge :
    ∀ (remaining : Nat) (bc : List duk_compiler_instr) (i count : Nat),
      count ≤ (duk__peephole_pass_iter bc i count remaining).2 := by
  intro remaining
  induction remaining with
  | zero => intro bc i count; exact le_refl count
  | succ r ih =>
    intro bc i count
    simp only [duk__peephole_pass_iter]
    repeat' split
    all_goals try exact ih ..
    exact le_trans (Nat.le_succ count) (ih ..)

theorem duk__peephole_pass_iter_count_eq_nojj :
    ∀ (remaining : Nat) (bc : List duk_compiler_instr) (i count : Nat),
      (duk__peephole_pass_iter bc i count remaining).2 = count →
      ∀ j instr instr2, i ≤ j → j < i + remaining →
        bc.get? j = some instr → DUK_DEC_OP instr.ins = DUK_OP_JUMP →
        0 ≤ duk__jump_target j instr.ins →
        bc.get? (duk__jump_target j instr.ins).toNat = some instr2 →
        DUK_DEC_OP instr2.ins ≠ DUK_OP_JUMP := by
  intro remaining
  induction remaining with
  | zero =>
    intro bc i count h j instr instr2 hij hjlt
    omega
  | succ r ih =>
    intro bc i count
    cases hbc : bc.get? i with
    | none =>
      simp only [duk__peephole_pass_iter, hbc]
      intro h j instr instr2 hij hjlt hget hop ht hget2
      by_cases hji : j = i
      · subst hji
        rw [hget] at hbc
        exact Option.noConfusion hbc
      · exact ih bc (i + 1) count h j instr instr2 (by omega) (by omega) hget hop ht hget2
    | some instr0 =>
      by_cases h1 : DUK_DEC_OP instr0.ins = DUK_OP_JUMP
      · by_cases h2 : duk__jump_target i instr0.ins < 0
        · simp only [duk__peephole_pass_iter, hbc]
          rw [if_pos h1, if_pos h2]
          intro h j instr instr2 hij hjlt hget hop ht hget2
          by_cases hji : j = i
          · subst hji
            rw [hget] at hbc
            cases hbc
            exact absurd ht (by omega)
          · exact ih bc (i + 1) count h j instr instr2 (by omega) (by omega) hget hop ht hget2
        · cases hbc2 : bc.get? (duk__jump_target i instr0.ins).toNat with
          | none =>
            simp only [duk__peephole_pass_iter, hbc]
            rw [if_pos h1, if_neg h2]
            simp only [hbc2]
            intro h j instr instr2 hij hjlt hget hop ht hget2
            by_cases hji : j = i
            · subst hji
              rw [hget] at hbc
              cases hbc
              rw [hget2] at hbc2
              exact Option.noConfusion hbc2
            · exact ih bc (i + 1) count h j instr instr2 (by omega) (by omega) hget hop ht hget2
          | some instr2x =>
            by_cases h3 : DUK_DEC_OP instr2x.ins = DUK_OP_JUMP
            · simp only [duk__peephole_pass_iter, hbc]
              rw [if_pos h1, if_neg h2]
              simp only [hbc2]
              rw [if_pos h3]
              intro h
              exfalso
              have hle := le_trans
                (duk__peephole_pass_iter_count_ge r _ (i + 1) (count + 1))
                (le_of_eq h)
              omega
            · simp only [duk__peephole_pass_iter, hbc]
              rw [if_pos h1, if_neg h2]
              simp only [hbc2]
              rw [if_neg h3]
              intro h j instr instr2 hij hjlt hget hop ht hget2
              by_cases hji : j = i
              · subst hji
                rw [hget] at hbc
                cases hbc
                rw [hget2] at hbc2
                cases hbc2
                exact h3
              · exact ih bc (i + 1) count h j instr instr2 (by omega) (by omega) hget hop ht hget2
      · simp only [duk__peephole_pass_iter, hbc]
        rw [if_neg h1]
        intro h j instr instr2 hij hjlt hget hop ht hget2
        by_cases hji : j = i
        · subst hji
          rw [hget] at hbc
          cases hbc
          exact absurd hop h1
        · exact ih bc (i + 1) count h j instr instr2 (by omega) (by omega) hget hop ht hget2

/-- A peephole pass that makes zero rewrites certifies that no in-bounds
jump targets another jump. -/
theorem duk__peephole_pass_count_zero_nojj (bc : List duk_compiler_instr) :
    (duk__peephole_pass bc).2 = 0 → duk__no_jump_to_jump bc = true := by
  intro h
  rw [duk__no_jump_to_jump_iff]
  intro i instr instr2 hget hop ht0 htl hget2
  have hilen : i < bc.length := list_get?_some_lt bc i instr hget
  exact duk__peephole_pass_iter_count_eq_nojj bc.length bc 0 0 h i instr instr2
    (Nat.zero_le i) (by omega) hget hop ht0 hget2

theorem duk__peephole_optimize_loop_length :
    ∀ (maxiter : Nat) (bc : List duk_compiler_instr),
      (duk__peephole_optimize_loop maxiter bc).length = bc.length := by
  intro maxiter
  induction maxiter with
  | zero => intro bc; rfl
  | succ m ih =>
    intro bc
    simp only [duk__peephole_optimize_loop]
    split
    · exact duk__peephole_pass_iter_length bc.length bc 0 0
    · rw [ih]
      exact duk__peephole_pass_iter_length bc.length bc 0 0

theorem duk__peephole_optimize_loop_get_nonjump :
    ∀ (maxiter : Nat) (bc : List duk_compiler_instr) (j : Nat) (instr : duk_compiler_instr),
      bc.get? j = some instr → DUK_DEC_OP instr.ins ≠ DUK_OP_JUMP →
      (duk__peephole_optimize_loop maxiter bc).get? j = some instr := by
  intro maxiter
  induction maxiter with
  | zero => intro bc j instr hj hop; exact hj
  | succ m ih =>
    intro bc j instr hj hop
    simp only [duk__peephole_optimize_loop]
    split
    · exact duk__peephole_pass_iter_get_nonjump bc.length bc 0 0 j instr hj hop
    · exact ih _ j instr (duk__peephole_pass_iter_get_nonjump bc.length bc 0 0 j instr hj hop) hop

theorem duk__peephole_optimize_loop_in_bounds :
    ∀ (maxiter : Nat) (bc : List duk_compiler_instr),
      bc.length ≤ 2 ^ 25 → duk__jumps_in_bounds bc = true →
      duk__jumps_in_bounds (duk__peephole_optimize_loop maxiter bc) = true := by
  intro maxiter
  induction maxiter with
  | zero => intro bc hlen hin; exact hin
  | succ m ih =>
    intro bc hlen hin
    simp only [duk__peephole_optimize_loop]
    split
    · exact duk__peephole_pass_iter_in_bounds bc.length bc 0 0 hlen hin
    · refine ih _ ?_ ?_
      · have hl : (duk__peephole_pass bc).1.length = bc.length :=
          duk__peephole_pass_iter_length bc.length bc 0 0
        rw [hl]
        exact hlen
      · exact duk__peephole_pass_iter_in_bounds bc.length bc 0 0 hlen hin

theorem duk__peephole_pass_iter_eq_spec :
    ∀ (remaining : Nat) (bc : List duk_compiler_instr) (i count : Nat),
      duk__peephole_pass_iter bc i count remaining =
        ((peephole_spec_passFrom bc i remaining).1,
          count + (peephole_spec_passFrom bc i remaining).2) := by
  intro remaining
  induction remaining with
  | zero =>
    intro bc i count
    simp [duk__peephole_pass_iter, peephole_spec_passFrom]
  | succ r ih =>
    intro bc i count
    cases hbc : bc.get? i with
    | none =>
      have hrw : peephole_spec_rewrite_at bc i = none := by
        unfold peephole_spec_rewrite_at
        rw [hbc]
      simp only [duk__peephole_pass_iter, peephole_spec_passFrom, hbc, hrw]
      exact ih bc (i + 1) count
    | some instr0 =>
      by_cases h1 : DUK_DEC_OP instr0.ins = DUK_OP_JUMP
      · by_cases h2 : duk__jump_target i instr0.ins < 0
        · have hrw : peephole_spec_rewrite_at bc i = none := by
            have hbcg : bc[i]? = some instr0 := by
              rw [← List.get?_eq_getElem?]; exact hbc
            simp [peephole_spec_rewrite_at, hbcg, h1, h2]
          simp only [duk__peephole_pass_iter, peephole_spec_passFrom, hbc, hrw]
          rw [if_pos h1, if_pos h2]
          exact ih bc (i + 1) count
        · cases hbc2 : bc.get? (duk__jump_target i instr0.ins).toNat with
          | none =>
            have hrw : peephole_spec_rewrite_at bc i = none := by
              have hbcg : bc[i]? = some instr0 := by
                rw [← List.get?_eq_getElem?]; exact hbc
              have hbc2g : bc[(duk__jump_target i instr0.ins).toNat]? = none := by
                rw [← List.get?_eq_getElem?]; exact hbc2
              simp [peephole_spec_rewrite_at, hbcg, h1, h2, hbc2g]
            simp only [duk__peephole_pass_iter, peephole_spec_passFrom, hbc, hrw]
            rw [if_pos h1, if_neg h2]
            simp only [hbc2]
            exact ih bc (i + 1) count
          | some instr2 =>
            by_cases h3 : DUK_DEC_OP instr2.ins = DUK_OP_JUMP
            · have hrw : peephole_spec_rewrite_at bc i = some { instr0 with
                ins := DUK_ENC_OP_ABC DUK_OP_JUMP
                  (duk__jump_target (duk__jump_target i instr0.ins).toNat instr2.ins -
                    ((i : Int) + 1) + (DUK_BC_JUMP_BIAS : Int)).toNat } := by
                have hbcg : bc[i]? = some instr0 := by
                  rw [← List.get?_eq_getElem?]; exact hbc
                have hbc2g : bc[(duk__jump_target i instr0.ins).toNat]? = some instr2 := by
                  rw [← List.get?_eq_getElem?]; exact hbc2
                simp [peephole_spec_rewrite_at, hbcg, h1, h2, hbc2g, h3]
              simp only [duk__peephole_pass_iter, peephole_spec_passFrom, hbc, hrw]
              rw [if_pos h1, if_neg h2]
              simp only [hbc2]
              rw [if_pos h3]
              rw [ih]
              simp only [Prod.mk.injEq, true_and]
              omega
            · have hrw : peephole_spec_rewrite_at bc i = none := by
                have hbcg : bc[i]? = some instr0 := by
                  rw [← List.get?_eq_getElem?]; exact hbc
                have hbc2g : bc[(duk__jump_target i instr0.ins).toNat]? = some instr2 := by
                  rw [← List.get?_eq_getElem?]; exact hbc2
                simp [peephole_spec_rewrite_at, hbcg, h1, h2, hbc2g, h3]
              simp only [duk__peephole_pass_iter, peephole_spec_passFrom, hbc, hrw]
              rw [if_pos h1, if_neg h2]
              simp only [hbc2]
              rw [if_neg h3]
              exact ih bc (i + 1) count
      · have hrw : peephole_spec_rewrite_at bc i = none := by
          have hbcg : bc[i]? = some instr0 := by
            rw [← List.get?_eq_getElem?]; exact hbc
          simp [peephole_spec_rewrite_at, hbcg, h1]
        simp only [duk__peephole_pass_iter, peephole_spec_passFrom, hbc, hrw]
        rw [if_neg h1]
        exact ih bc (i + 1) count

theorem duk__peephole_pass_eq_spec (bc : List duk_compiler_instr) :
    duk__peephole_pass bc = peephole_spec_pass bc := by
  unfold duk__peephole_pass peephole_spec_pass
  rw [duk__peephole_pass_iter_eq_spec]
  simp

theorem duk__peephole_loop_eq_spec :
    ∀ (cap : Nat) (bc : List duk_compiler_instr),
      duk__peephole_optimize_loop cap bc = peephole_spec_run cap bc := by
  intro cap
  induction cap with
  | zero => intro bc; rfl
  | succ m ih =>
    intro bc
    simp only [duk__peephole_optimize_loop, peephole_spec_run]
    rw [duk__peephole_pass_eq_spec]
    by_cases h : (peephole_spec_pass bc).2 = 0
    · simp [h]
    · simp [h, ih]

/-!  ## Helper lemmas for the claim theorems  -/
theorem list_range'_find?_le :
    ∀ (n s : Nat) (p : Nat → Bool) (i : Nat), s ≤ i → i < s + n → p i = true →
      ∃ j, (List.range' s n).find? p = some j ∧ p j = true ∧ j ≤ i := by
  intro n
  induction n with
  | zero =>
    intro s p i hsi hlt
    omega
  | succ m ih =>
    intro s p i hsi hlt hp
    rw [List.range'_succ s m 1]
    by_cases hs : p s = true
    · exact ⟨s, List.find?_cons_of_pos _ hs, hs, hsi⟩
    · have hne : s ≠ i := fun he => hs (he ▸ hp)
      obtain ⟨j, hfind, hpj, hji⟩ := ih (s + 1) p i (by omega) (by omega) hp
      refine ⟨j, ?_, hpj, hji⟩
      rw [List.find?_cons_of_neg _ (by simpa using hs)]
      exact hfind

theorem list_range_find?_le (n : Nat) (p : Nat → Bool) (i : Nat)
    (hlt : i < n) (hp : p i = true) :
    ∃ j, (List.range n).find? p = some j ∧ p j = true ∧ j ≤ i := by
  rw [List.range_eq_range' n]
  exact list_range'_find?_le n 0 p i (Nat.zero_le i) (by omega) hp

theorem duk__varmap_has_put_self (m : List (String × Nat)) (h : String) (i : Nat) :
    duk__varmap_has (duk__varmap_put m h i) h = true := by
  induction m with
  | nil => simp [duk__varmap_put, duk__varmap_has]
  | cons kv rest ih =>
    obtain ⟨k, v⟩ := kv
    by_cases hk : k = h
    · simp [duk__varmap_put, duk__varmap_has, hk]
    · simp only [duk__varmap_put]
      rw [if_neg hk]
      simp only [duk__varmap_has, List.any_cons] at ih ⊢
      simp [ih]

theorem duk__varmap_has_put_mono (m : List (String × Nat)) (h n : String) (i : Nat)
    (hn : duk__varmap_has m n = true) :
    duk__varmap_has (duk__varmap_put m h i) n = true := by
  induction m with
  | nil => simp [duk__varmap_has] at hn
  | cons kv rest ih =>
    obtain ⟨k, v⟩ := kv
    simp only [duk__varmap_has, List.any_cons] at hn
    by_cases hk : k = h
    · simp only [duk__varmap_put]
      rw [if_pos hk]
      simp only [duk__varmap_has, List.any_cons]
      rcases Bool.or_eq_true_iff.mp hn with hc | hc
      · simp at hc
        simp [hc]
      · simp [hc]
    · simp only [duk__varmap_put]
      rw [if_neg hk]
      simp only [duk__varmap_has, List.any_cons]
      rcases Bool.or_eq_true_iff.mp hn with hc | hc
      · simp [hc]
      · have := ih hc
        simp only [duk__varmap_has] at this
        simp [this]

/-- The no-shuffle fast path of `duk__emit_a_b_c`: a plain opcode with
in-range register operands emits exactly one instruction. -/
theorem duk__emit_a_b_c_fast (f : duk_compiler_func) (line op a b c : Nat)
    (hop : op < 2 ^ 8) (ha : a ≤ DUK_BC_A_MAX) (hb : b ≤ 0xff) (hc : c ≤ 0xff) :
    duk__emit_a_b_c f line op a b c =
      .ok (duk__emit f line (DUK_ENC_OP_A_B_C op a b c)) := by
  have hbm : duk__is_const_marked b = false := by
    unfold duk__is_const_marked DUK__CONST_MARKER
    simp only [decide_eq_false_iff_not]
    omega
  have hcm : duk__is_const_marked c = false := by
    unfold duk__is_const_marked DUK__CONST_MARKER
    simp only [decide_eq_false_iff_not]
    omega
  have hmod : op % 2 ^ 8 = op := Nat.mod_eq_of_lt hop
  simp [duk__emit_a_b_c, ha, hb, hc, hbm, hcm, hmod]
  rw [Nat.mod_eq_of_lt (show op < 256 from hop)]
  rfl

theorem duk__emit_a_b_fast (f : duk_compiler_func) (line op a b : Nat)
    (hop : op < 2 ^ 8) (ha : a ≤ DUK_BC_A_MAX) (hb : b ≤ 0xff) :
    duk__emit_a_b f line op a b =
      .ok (duk__emit f line (DUK_ENC_OP_A_B_C op a b 0)) := by
  unfold duk__emit_a_b
  exact duk__emit_a_b_c_fast f line op a b 0 hop ha hb (by omega)

theorem duk__lookup_scan_at_top_false :
    ∀ (l : List duk_labelinfo) (name : String) (brk : Bool) (li : duk_labelinfo) (c : Bool),
      duk__lookup_scan l name brk false = .ok (li, c) → c = false := by
  intro l
  induction l with
  | nil =>
    intro name brk li c h
    exact Except.noConfusion h
  | cons li0 rest ih =>
    intro name brk li c h
    unfold duk__lookup_scan at h
    repeat' split at h
    all_goals first
      | exact ih _ _ _ _ h
      | (cases h; rfl)
      | exact Except.noConfusion h

/-- A lookup reported as "closest" resolved to the newest record on the
label stack. -/
theorem duk__lookup_closest_newest (lis : List duk_labelinfo) (name : String) (brk : Bool)
    (li : duk_labelinfo) (h : duk__lookup_active_label lis name brk = .ok (li, true)) :
    lis.getLast? = some li := by
  unfold duk__lookup_active_label at h
  rw [← List.head?_reverse]
  cases hrev : lis.reverse with
  | nil =>
    rw [hrev] at h
    exact Except.noConfusion h
  | cons li0 rest =>
    rw [hrev] at h
    unfold duk__lookup_scan at h
    repeat' split at h
    all_goals first
      | exact absurd (duk__lookup_scan_at_top_false rest name brk li true h) (by simp)
      | (cases h; rfl)
      | exact Except.noConfusion h

/-!  ## Claim theorems  -/
set_option maxRecDepth 8192 in
/-- C1 (counterexample): the claim fails for pools larger than the
256-entry scan window.  A pool of 257 entries whose only entry
SameValue-equal to the interned value sits at index 256 (outside the
window): `duk__getconst` appends a duplicate and returns the fresh index
257 instead of returning index 256. -/
theorem duk__getconst_window_miss_counterexample :
    duk__getconst
        { consts := List.replicate 256 (duk_tval.boolean true) ++ [duk_tval.boolean false] }
        (duk_tval.boolean false) =
      .ok ({ consts := (List.replicate 256 (duk_tval.boolean true) ++ [duk_tval.boolean false])
                ++ [duk_tval.boolean false] },
           Nat.lor 257 DUK__CONST_MARKER) ∧
    duk_js_samevalue (duk_tval.boolean false)
      ((List.replicate 256 (duk_tval.boolean true) ++ [duk_tval.boolean false]).getD 256
        duk_tval.undefined) = true := by
  constructor
  · rfl
  · rfl

/-- C1 (amended): deduplication holds within the scan window: whenever
the interned value is SameValue-equal to a pool entry at an index inside
the first `DUK__GETCONST_MAX_CONSTS_CHECK` entries, `duk__getconst`
returns an existing matching index (the first such) and leaves the pool
unchanged, rather than appending a duplicate. -/
theorem duk__getconst_window_dedup (f : duk_compiler_func) (tv1 : duk_tval) (i : Nat)
    (hlen : i < f.consts.length) (hwin : i < DUK__GETCONST_MAX_CONSTS_CHECK)
    (hsv : duk_js_samevalue tv1 (f.consts.getD i duk_tval.undefined) = true) :
    ∃ j, j ≤ i ∧ duk_js_samevalue tv1 (f.consts.getD j duk_tval.undefined) = true ∧
      duk__getconst f tv1 = .ok (f, Nat.lor j DUK__CONST_MARKER) := by
  unfold duk__getconst duk__getconst_scan
  simp only []
  obtain ⟨j, hfind, hpj, hji⟩ := list_range_find?_le
    (if f.consts.length > DUK__GETCONST_MAX_CONSTS_CHECK then DUK__GETCONST_MAX_CONSTS_CHECK
      else f.consts.length)
    (fun k => duk_js_samevalue tv1 (f.consts.getD k duk_tval.undefined)) i
    (by split <;> omega) hsv
  refine ⟨j, hji, hpj, ?_⟩
  rw [hfind]
  rfl

/-- C1 witness for the amended theorem. -/
theorem duk__getconst_window_dedup_witness :
    ∃ j, j ≤ 0 ∧
      duk_js_samevalue (duk_tval.boolean true)
        (({ consts := [duk_tval.boolean true] } : duk_compiler_func).consts.getD j
          duk_tval.undefined) = true ∧
      duk__getconst { consts := [duk_tval.boolean true] } (duk_tval.boolean true) =
        .ok ({ consts := [duk_tval.boolean true] }, Nat.lor j DUK__CONST_MARKER) :=
  duk__getconst_window_dedup { consts := [duk_tval.boolean true] } (duk_tval.boolean true) 0
    (by decide) (by decide) (by decide)

/-- C2 (counterexample): exceeding the temp-register bound does not
produce a RangeError — `duk__alloctemps` raises `DUK_ERR_INTERNAL_ERROR`
("out of temps"), and the error kinds differ. -/
theorem duk__alloctemps_internal_counterexample :
    duk__alloctemps { temp_next := DUK__MAX_TEMPS } 1 =
      .error ⟨.DUK_ERR_INTERNAL_ERROR, "out of temps"⟩ ∧
    DukErrCode.DUK_ERR_INTERNAL_ERROR ≠ DukErrCode.DUK_ERR_RANGE_ERROR := by
  constructor
  · rfl
  · decide

/-- C2 (amended): exceeding any of the three bounded resources — temps,
constants, or inner functions, each bounded at `DUK_BC_BC_MAX + 1 = 2^18`
— makes compilation fail, but with an error of kind
`DUK_ERR_INTERNAL_ERROR`, not RangeError. -/
theorem duk__resource_limits_internal_error :
    (∀ (f : duk_compiler_func) (num : Nat), f.temp_next + num > DUK__MAX_TEMPS →
      duk__alloctemps f num = .error ⟨.DUK_ERR_INTERNAL_ERROR, "out of temps"⟩) ∧
    (∀ (f : duk_compiler_func) (tv1 : duk_tval),
      duk__getconst_scan f.consts tv1
        (if f.consts.length > DUK__GETCONST_MAX_CONSTS_CHECK then DUK__GETCONST_MAX_CONSTS_CHECK
          else f.consts.length) = none →
      f.consts.length ≥ DUK__MAX_CONSTS →
      duk__getconst f tv1 = .error ⟨.DUK_ERR_INTERNAL_ERROR, "out of consts"⟩) ∧
    (∀ fnum_next : Nat, fnum_next ≥ DUK__MAX_FUNCS →
      duk__parse_func_like_fnum_alloc fnum_next =
        .error ⟨.DUK_ERR_INTERNAL_ERROR, "out of funcs"⟩) := by
  refine ⟨?_, ?_, ?_⟩
  · intro f num h
    unfold duk__alloctemps
    rw [if_pos h]
  · intro f tv1 hscan hge
    unfold duk__getconst
    simp only []
    rw [hscan, if_pos hge]
  · intro fnum_next h
    unfold duk__parse_func_like_fnum_alloc
    simp only []
    rw [if_pos h]

/-- C2 witness: the amended theorem applied at the three concrete limit
states. -/
theorem duk__resource_limits_internal_error_witness :
    duk__alloctemps { temp_next := DUK__MAX_TEMPS } 1 =
      .error ⟨.DUK_ERR_INTERNAL_ERROR, "out of temps"⟩ ∧
    duk__getconst { consts := List.replicate DUK__MAX_CONSTS (duk_tval.boolean true) }
        (duk_tval.boolean false) =
      .error ⟨.DUK_ERR_INTERNAL_ERROR, "out of consts"⟩ ∧
    duk__parse_func_like_fnum_alloc DUK__MAX_FUNCS =
      .error ⟨.DUK_ERR_INTERNAL_ERROR, "out of funcs"⟩ :=
  ⟨duk__resource_limits_internal_error.1 { temp_next := DUK__MAX_TEMPS } 1 (by decide),
   duk__resource_limits_internal_error.2.1
     { consts := List.replicate DUK__MAX_CONSTS (duk_tval.boolean true) }
     (duk_tval.boolean false)
     (by
       unfold duk__getconst_scan
       rw [List.find?_eq_none]
       intro k hk
       simp only [List.getD, List.get?_eq_getElem?, List.getElem?_replicate]
       by_cases hkm : k < DUK__MAX_CONSTS
       · simp [hkm, duk_js_samevalue]
       · simp [hkm, duk_js_samevalue])
     (by simp [List.length_replicate]),
   duk__resource_limits_internal_error.2.2 DUK__MAX_FUNCS (le_refl _)⟩

set_option maxRecDepth 8192 in
/-- C3 (counterexample): the "no `JUMP` targets another `JUMP` after
peephole" half of the claim fails.  The two-instruction loop emitted for
an empty `for (;;) ;` — a jump to the next pc followed by a jump back —
has all jump targets in bounds, yet after the capped peephole run the
first instruction is still a `JUMP` whose target pc holds a `JUMP` (the
rewrite chain collapses it to a self-jump, which every pass "optimizes"
again, so no pass ever reports zero rewrites and the cap stops the
iteration). -/
theorem duk__peephole_jump_to_jump_counterexample :
    duk__jumps_in_bounds
        [⟨DUK_ENC_OP_ABC DUK_OP_JUMP DUK_BC_JUMP_BIAS, 1⟩,
         ⟨DUK_ENC_OP_ABC DUK_OP_JUMP (DUK_BC_JUMP_BIAS - 2), 1⟩] = true ∧
    duk__no_jump_to_jump
      (duk__peephole_optimize_bytecode DUK_COMPILER_PEEPHOLE_MAXITER
        [⟨DUK_ENC_OP_ABC DUK_OP_JUMP DUK_BC_JUMP_BIAS, 1⟩,
         ⟨DUK_ENC_OP_ABC DUK_OP_JUMP (DUK_BC_JUMP_BIAS - 2), 1⟩]) = false := by
  decide

/-- C3 (amended): for any iteration cap, the peephole optimizer keeps
every `JUMP` target inside the bytecode bounds (when the code is in
bounds to start with and fits the jump-offset field), and the
"no `JUMP` targets another `JUMP`" property holds for exactly the runs
that reached a pass with zero rewrites — in particular for the optimizer
result whenever the iteration stopped at a zero-rewrite pass rather than
at the cap. -/
theorem duk__peephole_jump_invariants :
    ∀ (maxiter : Nat) (bc : List duk_compiler_instr),
      (bc.length ≤ 2 ^ 25 → duk__jumps_in_bounds bc = true →
        duk__jumps_in_bounds (duk__peephole_optimize_bytecode maxiter bc) = true) ∧
      ((duk__peephole_pass bc).2 = 0 → duk__no_jump_to_jump bc = true) ∧
      ((duk__peephole_pass (duk__peephole_optimize_bytecode maxiter bc)).2 = 0 →
        duk__no_jump_to_jump (duk__peephole_optimize_bytecode maxiter bc) = true) :=
  fun maxiter bc =>
    ⟨fun h1 h2 => duk__peephole_optimize_loop_in_bounds maxiter bc h1 h2,
     duk__peephole_pass_count_zero_nojj bc,
     duk__peephole_pass_count_zero_nojj (duk__peephole_optimize_bytecode maxiter bc)⟩

set_option maxRecDepth 8192 in
/-- C3 witness: the amended invariants applied to a concrete
jump-to-return code buffer. -/
theorem duk__peephole_jump_invariants_witness :
    (duk__jumps_in_bounds
      (duk__peephole_optimize_bytecode 3
        [⟨DUK_ENC_OP_ABC DUK_OP_JUMP DUK_BC_JUMP_BIAS, 1⟩,
         ⟨DUK_ENC_OP_A_B_C DUK_OP_RETURN 2 0 0, 1⟩]) = true) ∧
    (duk__no_jump_to_jump
      [⟨DUK_ENC_OP_ABC DUK_OP_JUMP DUK_BC_JUMP_BIAS, 1⟩,
       ⟨DUK_ENC_OP_A_B_C DUK_OP_RETURN 2 0 0, 1⟩] = true) ∧
    (duk__no_jump_to_jump
      (duk__peephole_optimize_bytecode 3
        [⟨DUK_ENC_OP_ABC DUK_OP_JUMP DUK_BC_JUMP_BIAS, 1⟩,
         ⟨DUK_ENC_OP_A_B_C DUK_OP_RETURN 2 0 0, 1⟩]) = true) :=
  ⟨(duk__peephole_jump_invariants 3
      [⟨DUK_ENC_OP_ABC DUK_OP_JUMP DUK_BC_JUMP_BIAS, 1⟩,
       ⟨DUK_ENC_OP_A_B_C DUK_OP_RETURN 2 0 0, 1⟩]).1 (by decide) (by decide),
   (duk__peephole_jump_invariants 3
      [⟨DUK_ENC_OP_ABC DUK_OP_JUMP DUK_BC_JUMP_BIAS, 1⟩,
       ⟨DUK_ENC_OP_A_B_C DUK_OP_RETURN 2 0 0, 1⟩]).2.1 (by decide),
   (duk__peephole_jump_invariants 3
      [⟨DUK_ENC_OP_ABC DUK_OP_JUMP DUK_BC_JUMP_BIAS, 1⟩,
       ⟨DUK_ENC_OP_A_B_C DUK_OP_RETURN 2 0 0, 1⟩]).2.2 (by decide)⟩

/-- C4: the peephole optimizer implements the spec's description — up to
a fixed cap of passes, each pass rewriting in place (no instruction added
or removed) every `JUMP` whose target holds another `JUMP` to jump
directly to the latter's target, stopping after the first pass with zero
rewrites or at the cap.  `peephole_spec_run` is that description
transcribed from the spec's words; the source model equals it at every
cap and input, and preserves the instruction count. -/
theorem duk__peephole_optimize_matches_spec :
    ∀ (cap : Nat) (bc : List duk_compiler_instr),
      duk__peephole_optimize_bytecode cap bc = peephole_spec_run cap bc ∧
      (duk__peephole_optimize_bytecode cap bc).length = bc.length :=
  fun cap bc => ⟨duk__peephole_loop_eq_spec cap bc, duk__peephole_optimize_loop_length cap bc⟩

theorem list_set_last {α : Type} :
    ∀ (l : List α) (x : α), l ≠ [] → l.set (l.length - 1) x = l.dropLast ++ [x] := by
  intro l
  induction l with
  | nil => intro x h; exact absurd rfl h
  | cons a t ih =>
    intro x _
    cases t with
    | nil => simp
    | cons b t2 =>
      have := ih x (by simp)
      simp only [List.length_cons, List.set, List.dropLast]
      simpa using this

theorem nat_lor_flagbit_mod (x : Nat) : Nat.lor x 128 % 64 = x % 64 := by
  show (x ||| 128) % 64 = x % 64
  apply Nat.eq_of_testBit_eq
  intro i
  rw [show (64 : Nat) = 2 ^ 6 from rfl, Nat.testBit_mod_two_pow, Nat.testBit_mod_two_pow,
    Nat.testBit_lor]
  by_cases hi : i < 6
  · rw [show (128 : Nat) = 2 ^ 7 from rfl, Nat.testBit_two_pow]
    simp [hi, show ¬(7 = i) by omega]
  · simp [hi]

theorem nat_lor_flagbit_testBit (x : Nat) : (Nat.lor x 128).testBit 7 = true := by
  show (x ||| 128).testBit 7 = true
  rw [Nat.testBit_lor]
  rw [show (128 : Nat) = 2 ^ 7 from rfl, Nat.testBit_two_pow]
  simp

theorem duk__emit_return_b_cases (f : duk_compiler_func) (line a b : Nat)
    (ha : a ≤ DUK_BC_A_MAX) :
    duk__emit_a_b f line DUK_OP_RETURN a b =
      (if duk__is_const_marked b then
        if duk__clear_const_marker b ≤ 0xff then
          .ok { f with h_code := f.h_code ++
            [⟨DUK_ENC_OP_A_B_C DUK_OP_RETURN a (duk__clear_const_marker b + 0x100) 0, line⟩] }
        else if duk__clear_const_marker b ≤ DUK_BC_BC_MAX then
          .ok { f with needs_shuffle := true, h_code := f.h_code ++
            [⟨DUK_ENC_OP_A_BC DUK_OP_LDCONST f.shuffle2 (duk__clear_const_marker b), line⟩,
             ⟨DUK_ENC_OP_A_B_C DUK_OP_RETURN a f.shuffle2 0, line⟩] }
        else
          .error ⟨.DUK_ERR_RANGE_ERROR, "out of regs"⟩
      else
        if b ≤ 0xff then
          .ok { f with h_code := f.h_code ++
            [⟨DUK_ENC_OP_A_B_C DUK_OP_RETURN a b 0, line⟩] }
        else if b ≤ DUK_BC_BC_MAX then
          .ok { f with needs_shuffle := true, h_code := f.h_code ++
            [⟨DUK_ENC_OP_A_BC DUK_OP_LDREG f.shuffle2 b, line⟩,
             ⟨DUK_ENC_OP_A_B_C DUK_OP_RETURN a f.shuffle2 0, line⟩] }
        else
          .error ⟨.DUK_ERR_RANGE_ERROR, "out of regs"⟩) := by
  have hc0 : duk__is_const_marked 0 = false := by decide
  have hf1 : duk__opflag DUK_OP_RETURN DUK__EMIT_FLAG_NO_SHUFFLE_B = false := by decide
  have hf2 : duk__opflag DUK_OP_RETURN DUK__EMIT_FLAG_B_IS_TARGET = false := by decide
  have hf3 : duk__opflag DUK_OP_RETURN DUK__EMIT_FLAG_NO_SHUFFLE_C = false := by decide
  have hf4 : duk__opflag DUK_OP_RETURN DUK__EMIT_FLAG_C_IS_TARGET = false := by decide
  have hnc : ¬(DUK_OP_RETURN % 2 ^ 8 = DUK_OP_CALL ∨ DUK_OP_RETURN % 2 ^ 8 = DUK_OP_NEW ∨
      DUK_OP_RETURN % 2 ^ 8 = DUK_OP_MPUTOBJ ∨ DUK_OP_RETURN % 2 ^ 8 = DUK_OP_MPUTARR) := by
    decide
  have hmod : DUK_OP_RETURN % 2 ^ 8 = DUK_OP_RETURN := by decide
  by_cases hm : duk__is_const_marked b = true
  · by_cases h1 : duk__clear_const_marker b ≤ 0xff
    · simp [duk__emit_a_b, duk__emit_a_b_c, ha, hm, h1, hc0, hmod, duk__emit]
      try rfl
    · by_cases h2 : duk__clear_const_marker b ≤ DUK_BC_BC_MAX
      · simp [duk__emit_a_b, duk__emit_a_b_c, ha, hm, h1, h2, hc0, hmod, duk__emit]
        try rfl
      · simp [duk__emit_a_b, duk__emit_a_b_c, ha, hm, h1, h2, hc0, hmod]
        try rfl
  · rw [Bool.not_eq_true] at hm
    by_cases h1 : b ≤ 0xff
    · simp [duk__emit_a_b, duk__emit_a_b_c, ha, hm, h1, hc0, hmod, duk__emit]
      try rfl
    · by_cases h2 : b ≤ DUK_BC_BC_MAX
      · simp [duk__emit_a_b, duk__emit_a_b_c, ha, hm, h1, h2, hc0, hmod, hf1, hf2, hnc,
          duk__emit]
        try rfl
      · simp [duk__emit_a_b, duk__emit_a_b_c, ha, hm, h1, h2, hc0, hmod, hf1]
        try rfl

set_option maxHeartbeats 1000000 in
/-- C5: the return-statement emitter.  When the tail-call condition of
the claim holds, the prior `CALL`/`CALLI` gets the `TAILCALL` flag bit in
its A slot (its opcode is unchanged) and no `RETURN` is appended;
otherwise the `RETURN` path runs for every reg/const operand: the A slot
always carries the flags (`HAVE_RETVAL` = bit 0 iff a return expression
was present, `FAST` = bit 1 iff `catch_depth = 0`, for any B field), and
the emitted code is a single `RETURN` when the operand fits 8 bits (with
the const bit added to the B field for a const-marked operand), an
`LDCONST`/`LDREG` spill through `shuffle2` followed by the `RETURN` when
it only fits 18 bits, and a range error beyond that. -/
theorem duk__parse_return_stmt_spec :
    ∀ (nonstd_caller : Bool) (f : duk_compiler_func) (line : Nat)
      (has_expr : Bool) (pc_before_expr : Nat) (reg_val : Nat),
      f.is_function = true →
      (duk__return_tailcall_applies nonstd_caller f has_expr pc_before_expr = true →
        ∃ last, f.h_code.get? (f.h_code.length - 1) = some last ∧
          duk__parse_return_stmt_value nonstd_caller f line has_expr pc_before_expr reg_val =
            .ok { f with h_code := f.h_code.dropLast ++
              [{ last with
                  ins := Nat.lor last.ins (DUK_ENC_OP_A_B_C 0 DUK_BC_CALL_FLAG_TAILCALL 0 0) }] } ∧
          DUK_DEC_OP (Nat.lor last.ins (DUK_ENC_OP_A_B_C 0 DUK_BC_CALL_FLAG_TAILCALL 0 0)) =
            DUK_DEC_OP last.ins ∧
          (Nat.lor last.ins (DUK_ENC_OP_A_B_C 0 DUK_BC_CALL_FLAG_TAILCALL 0 0)).testBit 7 = true) ∧
      (duk__return_tailcall_applies nonstd_caller f has_expr pc_before_expr = false →
        (∀ bfield : Nat,
          DUK_DEC_OP (DUK_ENC_OP_A_B_C DUK_OP_RETURN
            ((if has_expr then DUK_BC_RETURN_FLAG_HAVE_RETVAL else 0) +
              (if f.catch_depth = 0 then DUK_BC_RETURN_FLAG_FAST else 0)) bfield 0) =
            DUK_OP_RETURN ∧
          (DUK_DEC_A (DUK_ENC_OP_A_B_C DUK_OP_RETURN
            ((if has_expr then DUK_BC_RETURN_FLAG_HAVE_RETVAL else 0) +
              (if f.catch_depth = 0 then DUK_BC_RETURN_FLAG_FAST else 0)) bfield 0)).testBit 0 =
            has_expr ∧
          (DUK_DEC_A (DUK_ENC_OP_A_B_C DUK_OP_RETURN
            ((if has_expr then DUK_BC_RETURN_FLAG_HAVE_RETVAL else 0) +
              (if f.catch_depth = 0 then DUK_BC_RETURN_FLAG_FAST else 0)) bfield 0)).testBit 1 =
            decide (f.catch_depth = 0)) ∧
        duk__parse_return_stmt_value nonstd_caller f line has_expr pc_before_expr reg_val =
          (if duk__is_const_marked (if has_expr then reg_val else 0) then
            if duk__clear_const_marker (if has_expr then reg_val else 0) ≤ 0xff then
              .ok { f with h_code := f.h_code ++
                [⟨DUK_ENC_OP_A_B_C DUK_OP_RETURN
                    ((if has_expr then DUK_BC_RETURN_FLAG_HAVE_RETVAL else 0) +
                      (if f.catch_depth = 0 then DUK_BC_RETURN_FLAG_FAST else 0))
                    (duk__clear_const_marker (if has_expr then reg_val else 0) + 0x100) 0,
                  line⟩] }
            else if duk__clear_const_marker (if has_expr then reg_val else 0) ≤ DUK_BC_BC_MAX then
              .ok { f with needs_shuffle := true, h_code := f.h_code ++
                [⟨DUK_ENC_OP_A_BC DUK_OP_LDCONST f.shuffle2
                    (duk__clear_const_marker (if has_expr then reg_val else 0)), line⟩,
                 ⟨DUK_ENC_OP_A_B_C DUK_OP_RETURN
                    ((if has_expr then DUK_BC_RETURN_FLAG_HAVE_RETVAL else 0) +
                      (if f.catch_depth = 0 then DUK_BC_RETURN_FLAG_FAST else 0))
                    f.shuffle2 0, line⟩] }
            else
              .error ⟨.DUK_ERR_RANGE_ERROR, "out of regs"⟩
          else
            if (if has_expr then reg_val else 0) ≤ 0xff then
              .ok { f with h_code := f.h_code ++
                [⟨DUK_ENC_OP_A_B_C DUK_OP_RETURN
                    ((if has_expr then DUK_BC_RETURN_FLAG_HAVE_RETVAL else 0) +
                      (if f.catch_depth = 0 then DUK_BC_RETURN_FLAG_FAST else 0))
                    (if has_expr then reg_val else 0) 0, line⟩] }
            else if (if has_expr then reg_val else 0) ≤ DUK_BC_BC_MAX then
              .ok { f with needs_shuffle := true, h_code := f.h_code ++
                [⟨DUK_ENC_OP_A_BC DUK_OP_LDREG f.shuffle2
                    (if has_expr then reg_val else 0), line⟩,
                 ⟨DUK_ENC_OP_A_B_C DUK_OP_RETURN
                    ((if has_expr then DUK_BC_RETURN_FLAG_HAVE_RETVAL else 0) +
                      (if f.catch_depth = 0 then DUK_BC_RETURN_FLAG_FAST else 0))
                    f.shuffle2 0, line⟩] }
            else
              .error ⟨.DUK_ERR_RANGE_ERROR, "out of regs"⟩)) := by
  intro nonstd_caller f line has_expr pc_before_expr reg_val hfunc
  have hflag : DUK_ENC_OP_A_B_C 0 DUK_BC_CALL_FLAG_TAILCALL 0 0 = 128 := by decide
  constructor
  · intro hcond
    unfold duk__return_tailcall_applies at hcond
    cases hlast : f.h_code.get? (f.h_code.length - 1) with
    | none =>
      rw [hlast] at hcond
      simp at hcond
    | some last =>
      rw [hlast] at hcond
      simp only [Bool.and_eq_true, Bool.or_eq_true, beq_iff_eq, Bool.not_eq_true',
        decide_eq_true_eq] at hcond
      obtain ⟨⟨⟨⟨hexpr, hnonstd⟩, hcatch⟩, hpc⟩, hcall⟩ := hcond
      refine ⟨last, rfl, ?_, ?_, ?_⟩
      · unfold duk__parse_return_stmt_value
        rw [if_neg (by simp [hfunc])]
        rw [if_pos hexpr]
        simp only []
        rw [if_pos ⟨by simp [hnonstd], hcatch, hpc⟩]
        rw [hlast]
        simp only []
        rw [if_pos hcall]
        have hne : f.h_code ≠ [] := by
          intro he
          rw [he] at hpc
          simp at hpc
        unfold duk__set_instr_ins
        rw [hlast]
        simp only []
        rw [list_set_last f.h_code _ hne]
      · rw [hflag]
        unfold DUK_DEC_OP
        exact nat_lor_flagbit_mod last.ins
      · rw [hflag]
        exact nat_lor_flagbit_testBit last.ins
  · intro hcond
    have hrf3 : (if has_expr then DUK_BC_RETURN_FLAG_HAVE_RETVAL else 0) +
        (if f.catch_depth = 0 then DUK_BC_RETURN_FLAG_FAST else 0) ≤ 3 := by
      cases has_expr <;> by_cases hc : f.catch_depth = 0 <;>
        simp [hc, DUK_BC_RETURN_FLAG_HAVE_RETVAL, DUK_BC_RETURN_FLAG_FAST]
    constructor
    · intro bfield
      have hOP : ∀ x : Nat,
          DUK_DEC_OP (DUK_ENC_OP_A_B_C DUK_OP_RETURN x bfield 0) = DUK_OP_RETURN := by
        intro x
        unfold DUK_DEC_OP DUK_ENC_OP_A_B_C DUK_OP_RETURN
        omega
      have hA : ∀ x : Nat, x ≤ 3 →
          DUK_DEC_A (DUK_ENC_OP_A_B_C DUK_OP_RETURN x bfield 0) = x := by
        intro x hx
        unfold DUK_DEC_A DUK_ENC_OP_A_B_C DUK_OP_RETURN
        omega
      refine ⟨hOP _, ?_, ?_⟩
      · rw [hA _ hrf3]
        by_cases hcd : f.catch_depth = 0
        · rw [if_pos hcd]
          cases has_expr <;> decide
        · rw [if_neg hcd]
          cases has_expr <;> decide
      · rw [hA _ hrf3]
        by_cases hcd : f.catch_depth = 0
        · rw [if_pos hcd, decide_eq_true hcd]
          cases has_expr <;> decide
        · rw [if_neg hcd, decide_eq_false hcd]
          cases has_expr <;> decide
    · have hfn : duk__parse_return_stmt_value nonstd_caller f line has_expr pc_before_expr
          reg_val = duk__emit_ret f line
            (if has_expr then DUK_BC_RETURN_FLAG_HAVE_RETVAL else 0)
            (if has_expr then reg_val else 0) := by
        unfold duk__parse_return_stmt_value
        rw [if_neg (by simp [hfunc])]
        by_cases hexpr : has_expr = true
        · simp only [hexpr, if_true]
          by_cases hguard : ¬nonstd_caller = true ∧ f.catch_depth = 0 ∧
              pc_before_expr < f.h_code.length
          · rw [if_pos hguard]
            cases hlast : f.h_code.get? (f.h_code.length - 1) with
            | none => rfl
            | some last =>
              simp only []
              unfold duk__return_tailcall_applies at hcond
              rw [hlast] at hcond
              have hnotcall : ¬(DUK_DEC_OP last.ins = DUK_OP_CALL ∨
                  DUK_DEC_OP last.ins = DUK_OP_CALLI) := by
                intro hc
                have hT : (has_expr && !nonstd_caller && (f.catch_depth == 0) &&
                    decide (pc_before_expr < f.h_code.length) &&
                    ((DUK_DEC_OP last.ins == DUK_OP_CALL) ||
                      (DUK_DEC_OP last.ins == DUK_OP_CALLI))) = true := by
                  simp only [Bool.and_eq_true, Bool.or_eq_true, beq_iff_eq, Bool.not_eq_true',
                    decide_eq_true_eq]
                  exact ⟨⟨⟨⟨hexpr, by simpa using hguard.1⟩, hguard.2.1⟩, hguard.2.2⟩, hc⟩
                rw [hcond] at hT
                exact Bool.noConfusion hT
              rw [if_neg hnotcall]
          · rw [if_neg hguard]
        · rw [Bool.not_eq_true] at hexpr
          simp only [hexpr, Bool.false_eq_true, if_false]
      rw [hfn]
      unfold duk__emit_ret
      simp only []
      have hswap : (if f.catch_depth = 0 then
            (if has_expr then DUK_BC_RETURN_FLAG_HAVE_RETVAL else 0) + DUK_BC_RETURN_FLAG_FAST
          else (if has_expr then DUK_BC_RETURN_FLAG_HAVE_RETVAL else 0)) =
          (if has_expr then DUK_BC_RETURN_FLAG_HAVE_RETVAL else 0) +
            (if f.catch_depth = 0 then DUK_BC_RETURN_FLAG_FAST else 0) := by
        by_cases hc : f.catch_depth = 0
        · rw [if_pos hc, if_pos hc]
        · rw [if_neg hc, if_neg hc, Nat.add_zero]
      rw [hswap]
      exact duk__emit_return_b_cases f line
        ((if has_expr then DUK_BC_RETURN_FLAG_HAVE_RETVAL else 0) +
          (if f.catch_depth = 0 then DUK_BC_RETURN_FLAG_FAST else 0))
        (if has_expr then reg_val else 0)
        (by unfold DUK_BC_A_MAX; omega)

/-- C5 witness: the tail-call case at a concrete one-`CALL` buffer, and
the const-marked `LDCONST` shuffle case of the `RETURN` path at a
concrete oversized constant operand. -/
theorem duk__parse_return_stmt_spec_witness :
    (∃ last, duk__c5_witness_func.h_code.get? (duk__c5_witness_func.h_code.length - 1) =
        some last ∧
      duk__parse_return_stmt_value false duk__c5_witness_func 1 true 0 0 =
        .ok { duk__c5_witness_func with h_code := duk__c5_witness_func.h_code.dropLast ++
          [{ last with
              ins := Nat.lor last.ins (DUK_ENC_OP_A_B_C 0 DUK_BC_CALL_FLAG_TAILCALL 0 0) }] } ∧
      DUK_DEC_OP (Nat.lor last.ins (DUK_ENC_OP_A_B_C 0 DUK_BC_CALL_FLAG_TAILCALL 0 0)) =
        DUK_DEC_OP last.ins ∧
      (Nat.lor last.ins (DUK_ENC_OP_A_B_C 0 DUK_BC_CALL_FLAG_TAILCALL 0 0)).testBit 7 = true) ∧
    duk__parse_return_stmt_value true duk__c5_witness_func 1 true 0 (2 ^ 31 + 300) =
      .ok { duk__c5_witness_func with needs_shuffle := true, h_code :=
          duk__c5_witness_func.h_code ++
          [⟨DUK_ENC_OP_A_BC DUK_OP_LDCONST duk__c5_witness_func.shuffle2 300, 1⟩,
           ⟨DUK_ENC_OP_A_B_C DUK_OP_RETURN 3 duk__c5_witness_func.shuffle2 0, 1⟩] } :=
  ⟨(duk__parse_return_stmt_spec false duk__c5_witness_func 1 true 0 0 (by decide)).1 (by decide),
   by
     have h := ((duk__parse_return_stmt_spec true duk__c5_witness_func 1 true 0 (2 ^ 31 + 300)
       (by decide)).2 (by decide)).2
     rw [h]
     rfl⟩

/-- C6: break/continue emission.  When the resolved label record is the
newest entry on the label stack ("closest") and its recorded catch depth
equals the current `catch_depth`, a direct `JUMP` to the label site's
break slot (`pc_label + 1`) or continue slot (`pc_label + 2`) is emitted;
in every other case a slow `BREAK`/`CONTINUE` carrying the numeric label
id is emitted.  The "closest" flag indeed designates the newest record on
the stack. -/
theorem duk__parse_break_or_continue_spec :
    ∀ (f : duk_compiler_func) (line : Nat) (lis : List duk_labelinfo) (name : String)
      (is_break : Bool) (li : duk_labelinfo) (closest : Bool),
      duk__lookup_active_label lis name is_break = .ok (li, closest) →
      f.h_code.length < 2 ^ 25 → li.pc_label + 2 < 2 ^ 25 → li.label_id ≤ DUK_BC_ABC_MAX →
      ∃ ins,
        duk__parse_break_or_continue_stmt_resolved f line lis name is_break =
          .ok { f with h_code := f.h_code ++ [⟨ins, line⟩] } ∧
        (if li.catch_depth = f.catch_depth ∧ closest = true then
          DUK_DEC_OP ins = DUK_OP_JUMP ∧
          duk__jump_target f.h_code.length ins =
            ((li.pc_label : Int) + (if is_break then 1 else 2))
        else
          DUK_DEC_OP ins = (if is_break then DUK_OP_BREAK else DUK_OP_CONTINUE) ∧
          DUK_DEC_ABC ins = li.label_id) ∧
        (closest = true → lis.getLast? = some li) := by
  intro f line lis name is_break li closest hlookup hlen hpc hid
  have hnewest : closest = true → lis.getLast? = some li := by
    intro hc
    exact duk__lookup_closest_newest lis name is_break li (hc ▸ hlookup)
  unfold duk__parse_break_or_continue_stmt_resolved
  rw [hlookup]
  simp only []
  unfold duk__parse_break_or_continue_emit
  by_cases hcond : li.catch_depth = f.catch_depth ∧ closest = true
  · rw [if_pos hcond]
    unfold duk__emit_jump duk__emit_abc
    refine ⟨_, rfl, ?_, hnewest⟩
    rw [if_pos hcond]
    cases is_break
    · simp only [if_false, Bool.false_eq_true]
      constructor
      · exact DUK_DEC_OP_ENC_ABC _ _ (by decide)
      · have harg : ((li.pc_label + 2 : Nat) : Int) - (f.h_code.length : Int) - 1 +
            (DUK_BC_JUMP_BIAS : Nat) =
            ((li.pc_label + 2 : Nat) : Int) - ((f.h_code.length : Nat) + 1) +
              (DUK_BC_JUMP_BIAS : Nat) := by ring
        rw [harg]
        rw [duk__jump_target_enc f.h_code.length ((li.pc_label + 2 : Nat) : Int)
          (by positivity) (by push_cast; omega) (by push_cast; omega)]
        push_cast
        ring
    · simp only [if_true]
      constructor
      · exact DUK_DEC_OP_ENC_ABC _ _ (by decide)
      · have harg : ((li.pc_label + 1 : Nat) : Int) - (f.h_code.length : Int) - 1 +
            (DUK_BC_JUMP_BIAS : Nat) =
            ((li.pc_label + 1 : Nat) : Int) - ((f.h_code.length : Nat) + 1) +
              (DUK_BC_JUMP_BIAS : Nat) := by ring
        rw [harg]
        rw [duk__jump_target_enc f.h_code.length ((li.pc_label + 1 : Nat) : Int)
          (by positivity) (by push_cast; omega) (by push_cast; omega)]
        push_cast
        ring
  · rw [if_neg hcond]
    unfold duk__emit_abc
    refine ⟨_, rfl, ?_, hnewest⟩
    rw [if_neg hcond]
    cases is_break
    · simp only [if_false, Bool.false_eq_true]
      exact ⟨DUK_DEC_OP_ENC_ABC _ _ (by decide),
        DUK_DEC_ABC_ENC_ABC _ _ (by decide) (by unfold DUK_BC_ABC_MAX at hid; omega)⟩
    · simp only [if_true]
      exact ⟨DUK_DEC_OP_ENC_ABC _ _ (by decide),
        DUK_DEC_ABC_ENC_ABC _ _ (by decide) (by unfold DUK_BC_ABC_MAX at hid; omega)⟩

/-- C6 witness: an unlabelled `break` against a single active label
record at pc 0. -/
theorem duk__parse_break_or_continue_spec_witness :
    ∃ ins,
      duk__parse_break_or_continue_stmt_resolved duk__c6_witness_func 1
          [duk__c6_witness_label] "" true =
        .ok { duk__c6_witness_func with
          h_code := duk__c6_witness_func.h_code ++ [⟨ins, 1⟩] } ∧
      (if duk__c6_witness_label.catch_depth = duk__c6_witness_func.catch_depth ∧
          (true : Bool) = true then
        DUK_DEC_OP ins = DUK_OP_JUMP ∧
        duk__jump_target duk__c6_witness_func.h_code.length ins =
          ((duk__c6_witness_label.pc_label : Int) + (if (true : Bool) then 1 else 2))
      else
        DUK_DEC_OP ins = (if (true : Bool) then DUK_OP_BREAK else DUK_OP_CONTINUE) ∧
        DUK_DEC_ABC ins = duk__c6_witness_label.label_id) ∧
      ((true : Bool) = true → ([duk__c6_witness_label] : List duk_labelinfo).getLast? =
        some duk__c6_witness_label) :=
  duk__parse_break_or_continue_spec duk__c6_witness_func 1 [duk__c6_witness_label] "" true
    duk__c6_witness_label true rfl (by decide) (by decide) (by decide)

/-- C7: the top-level driver.  A successful raw compilation passes
through; every error thrown by the compiler's failure channel is caught
at the protected-call boundary, its message is annotated with
`" (line N)"` from the lexer's current token, and the error (same kind)
is rethrown. -/
theorem duk_js_compile_annotates :
    ∀ (α : Type) (res : Except DukError α) (line : Nat),
      (∀ t, res = .ok t → duk_js_compile res line = .ok t) ∧
      (∀ e, res = .error e →
        duk_js_compile res line =
          .error (.errobj e.code
            (some (e.message ++ " (line " ++ Nat.repr line ++ ")")))) := by
  intro α res line
  constructor
  · intro t h
    subst h
    rfl
  · intro e h
    subst h
    rfl

/-- C7 witness: a concrete SyntaxError annotated with line 7. -/
theorem duk_js_compile_annotates_witness :
    duk_js_compile (α := Nat) (.error ⟨.DUK_ERR_SYNTAX_ERROR, "parse error"⟩) 7 =
      .error (.errobj .DUK_ERR_SYNTAX_ERROR
        (some ("parse error" ++ " (line " ++ Nat.repr 7 ++ ")"))) :=
  (duk_js_compile_annotates Nat (.error ⟨.DUK_ERR_SYNTAX_ERROR, "parse error"⟩) 7).2
    ⟨.DUK_ERR_SYNTAX_ERROR, "parse error"⟩ rfl

/-- C8: when the current token is `++` or `--` and its `lineterm` flag is
set, `duk__expr_lbp` returns 0, so the Pratt loop guard `rbp < lbp` fails
for every right binding power and the enclosing expression terminates
before the operator; without the flag the token binds at the postfix
level. -/
theorem duk__expr_lbp_postfix_lineterm :
    ∀ (tok : DukTok) (allow_in : Bool) (rbp : Nat),
      (tok = .DUK_TOK_INCREMENT ∨ tok = .DUK_TOK_DECREMENT) →
      duk__expr_lbp { t := tok, lineterm := true } allow_in = 0 ∧
      ¬(rbp < duk__expr_lbp { t := tok, lineterm := true } allow_in) ∧
      duk__expr_lbp { t := tok, lineterm := false } allow_in = DUK__BP_POSTFIX := by
  intro tok allow_in rbp h
  rcases h with h | h <;> subst h <;> refine ⟨?_, ?_, ?_⟩ <;>
    simp [duk__expr_lbp, duk__token_lbp, DUK__TOKEN_LBP_GET_BP, DUK__MK_LBP, DUK__BP_POSTFIX]

/-- C8 witness: a post-increment after a line terminator at `rbp = 4`. -/
theorem duk__expr_lbp_postfix_lineterm_witness :
    duk__expr_lbp { t := .DUK_TOK_INCREMENT, lineterm := true } true = 0 ∧
    ¬(4 < duk__expr_lbp { t := .DUK_TOK_INCREMENT, lineterm := true } true) ∧
    duk__expr_lbp { t := .DUK_TOK_INCREMENT, lineterm := false } true = DUK__BP_POSTFIX :=
  duk__expr_lbp_postfix_lineterm .DUK_TOK_INCREMENT true 4 (Or.inl rfl)

/-- C9: after the pass-2 epilogue — the unconditional final `RETURN`
followed by the peephole pass — the bytecode is non-empty (one longer
than the body's code) and the instruction at the last position decodes to
`RETURN` with the `FAST` flag (bit 1 of slot A) set, for every mode
(`reg_stmt_value ≥ 0` models program/eval code with an implicit return
value, `reg_stmt_value < 0` plain function code): the peephole pass only
rewrites `JUMP` instructions in place and cannot touch it. -/
theorem duk__parse_func_body_final_return :
    ∀ (maxiter : Nat) (f : duk_compiler_func) (line : Nat) (reg_stmt_value : Int),
      (0 ≤ reg_stmt_value → reg_stmt_value ≤ 255) →
      ∃ f2, duk__parse_func_body_finish maxiter f line reg_stmt_value = .ok f2 ∧
        f2.h_code.length = f.h_code.length + 1 ∧
        ∃ last, f2.h_code.get? (f.h_code.length) = some last ∧
          DUK_DEC_OP last.ins = DUK_OP_RETURN ∧
          (DUK_DEC_A last.ins).testBit 1 = true := by
  intro maxiter f line reg_stmt_value hreg
  unfold duk__parse_func_body_finish
  by_cases hr : (0 : Int) ≤ reg_stmt_value
  · rw [if_pos hr]
    have hreg2 : reg_stmt_value.toNat ≤ 0xff := by
      have := hreg hr
      omega
    rw [duk__emit_a_b_fast f line DUK_OP_RETURN
      (DUK_BC_RETURN_FLAG_HAVE_RETVAL + DUK_BC_RETURN_FLAG_FAST) reg_stmt_value.toNat
      (by decide) (by decide) hreg2]
    simp only []
    refine ⟨_, rfl, ?_, ?_⟩
    · simp only []
      unfold duk__peephole_optimize_bytecode
      rw [duk__peephole_optimize_loop_length]
      simp [duk__emit]
    · refine ⟨⟨DUK_ENC_OP_A_B_C DUK_OP_RETURN
        (DUK_BC_RETURN_FLAG_HAVE_RETVAL + DUK_BC_RETURN_FLAG_FAST) reg_stmt_value.toNat 0,
        line⟩, ?_, ?_, ?_⟩
      · apply duk__peephole_optimize_loop_get_nonjump
        · exact List.get?_concat_length f.h_code _
        · rw [DUK_DEC_OP_ENC_A_B_C _ _ _ _ (by decide)]
          decide
      · rw [DUK_DEC_OP_ENC_A_B_C _ _ _ _ (by decide)]
      · rw [DUK_DEC_A_ENC_A_B_C _ _ _ _ (by decide) (by decide) (by omega) (by decide)]
        decide
  · rw [if_neg hr]
    rw [duk__emit_a_b_fast f line DUK_OP_RETURN DUK_BC_RETURN_FLAG_FAST 0
      (by decide) (by decide) (by decide)]
    simp only []
    refine ⟨_, rfl, ?_, ?_⟩
    · simp only []
      unfold duk__peephole_optimize_bytecode
      rw [duk__peephole_optimize_loop_length]
      simp [duk__emit]
    · refine ⟨⟨DUK_ENC_OP_A_B_C DUK_OP_RETURN DUK_BC_RETURN_FLAG_FAST 0 0, line⟩, ?_, ?_, ?_⟩
      · apply duk__peephole_optimize_loop_get_nonjump
        · exact List.get?_concat_length f.h_code _
        · rw [DUK_DEC_OP_ENC_A_B_C _ _ _ _ (by decide)]
          decide
      · rw [DUK_DEC_OP_ENC_A_B_C _ _ _ _ (by decide)]
      · rw [DUK_DEC_A_ENC_A_B_C _ _ _ _ (by decide) (by decide) (by decide) (by decide)]
        decide

/-- C9 witness: an empty body compiled as function code. -/
theorem duk__parse_func_body_final_return_witness :
    ∃ f2, duk__parse_func_body_finish 3 {} 1 (-1) = .ok f2 ∧
      f2.h_code.length = ({} : duk_compiler_func).h_code.length + 1 ∧
      ∃ last, f2.h_code.get? (({} : duk_compiler_func).h_code.length) = some last ∧
        DUK_DEC_OP last.ins = DUK_OP_RETURN ∧
        (DUK_DEC_A last.ins).testBit 1 = true :=
  duk__parse_func_body_final_return 3 {} 1 (-1) (by decide)

theorem duk__formals_loop_strict_err :
    ∀ (names : List String) (i : Nat) (varmap : List (String × Nat)),
      (¬names.Nodup ∨ ∃ name ∈ names,
        duk__hstring_is_eval_or_arguments name = true ∨
        DUK_HSTRING_HAS_STRICT_RESERVED_WORD name = true ∨
        duk__varmap_has varmap name = true) →
      duk__init_varmap_formals_loop true names i varmap =
        .error ⟨.DUK_ERR_SYNTAX_ERROR, "invalid arg name"⟩ := by
  intro names
  induction names with
  | nil =>
    intro i varmap h
    rcases h with h | ⟨name, hmem, _⟩
    · exact absurd List.nodup_nil h
    · exact absurd hmem (List.not_mem_nil name)
  | cons hd tl ih =>
    intro i varmap h
    unfold duk__init_varmap_formals_loop
    by_cases h1 : duk__hstring_is_eval_or_arguments hd = true
    · rw [if_pos ⟨rfl, h1⟩]
    · rw [if_neg (fun hc => h1 hc.2)]
      by_cases h2 : duk__varmap_has varmap hd = true
      · rw [if_pos ⟨rfl, h2⟩]
      · rw [if_neg (fun hc => h2 hc.2)]
        by_cases h3 : DUK_HSTRING_HAS_STRICT_RESERVED_WORD hd = true
        · rw [if_pos ⟨rfl, h3⟩]
        · rw [if_neg (fun hc => h3 hc.2)]
          apply ih
          rcases h with h | ⟨name, hmem, hbad⟩
          · rw [List.nodup_cons] at h
            push_neg at h
            by_cases hmem : hd ∈ tl
            · exact Or.inr ⟨hd, hmem, Or.inr (Or.inr (duk__varmap_has_put_self varmap hd i))⟩
            · exact Or.inl (h hmem)
          · rcases List.mem_cons.mp hmem with heq | hmem2
            · subst heq
              rcases hbad with hb | hb | hb
              · exact absurd hb h1
              · exact absurd hb h3
              · exact absurd hb h2
            · refine Or.inr ⟨name, hmem2, ?_⟩
              rcases hbad with hb | hb | hb
              · exact Or.inl hb
              · exact Or.inr (Or.inl hb)
              · exact Or.inr (Or.inr (duk__varmap_has_put_mono varmap hd name i hb))

/-- C10: pass-2 formal-name validation.  Whenever the function's final
strictness — as determined by pass 1, including a `"use strict"`
directive found inside the function's own body — is strict, a formal
list containing a duplicate name, a formal named `eval`/`arguments`, or
a strict-reserved word makes the prologue's formal loop fail with a
SyntaxError ("invalid arg name"). -/
theorem duk__init_varmap_formals_strict_err :
    ∀ (argnames : List String),
      (¬argnames.Nodup ∨ ∃ name ∈ argnames,
        duk__hstring_is_eval_or_arguments name = true ∨
        DUK_HSTRING_HAS_STRICT_RESERVED_WORD name = true) →
      duk__init_varmap_formals true argnames =
        .error ⟨.DUK_ERR_SYNTAX_ERROR, "invalid arg name"⟩ := by
  intro argnames h
  unfold duk__init_varmap_formals
  apply duk__formals_loop_strict_err
  rcases h with h | ⟨name, hmem, hbad⟩
  · exact Or.inl h
  · exact Or.inr ⟨name, hmem, hbad.imp_right Or.inl⟩

/-- C10 witness: a duplicated formal name under strict mode. -/
theorem duk__init_varmap_formals_strict_err_witness :
    duk__init_varmap_formals true ["a", "a"] =
      .error ⟨.DUK_ERR_SYNTAX_ERROR, "invalid arg name"⟩ :=
  duk__init_varmap_formals_strict_err ["a", "a"] (Or.inl (by decide))
